import Mathlib

/-!
# Verification of the RoboticAdvisor financial planning engine

A shallow embedding of the engine core of the RoboticAdvisor repository
(assumptions registry, numeric kernel, deterministic projector, Monte Carlo
simulator, goal allocator, rebalancer), together with proofs and refutations
of the specification claims about it.

Modelling conventions:
* JavaScript `number` arithmetic is idealized as exact rational arithmetic
  (`ℚ`).  None of the verified properties depends on floating-point rounding.
* JavaScript objects used as string-keyed dictionaries are association lists
  `List (String × ℚ)` in declaration order (`Object.entries` order); lookups
  take the first matching key, and object keys are unique by construction,
  which theorems record as a `Nodup` hypothesis on the key list.
* The JavaScript `x || d` idiom on numbers treats `0` (and a missing value)
  as absent; it is modelled by `jsOr` / `jsOrZ` below.
* `Math.sqrt` and the Box–Muller standard-normal draws are irrational-valued,
  so they enter the embedding as explicit function parameters (`sqrt`,
  `g` respectively); every theorem quantifies over them.
* Thrown exceptions are modelled with `Except EngineError`.
-/

namespace Engine

/-- Errors thrown by the engine: `ValidationError(field, message)` from the
input validator, and plain `Error(message)` everywhere else. -/
inductive EngineError where
  | validation (field : String) (msg : String)
  | failure (msg : String)
deriving DecidableEq, Repr

/-- The JavaScript idiom `x || d` applied to an optional number: both a
missing value and `0` fall back to the default `d`. -/
def jsOr (x : Option ℚ) (d : ℚ) : ℚ :=
  match x with
  | none => d
  | some v => if v = 0 then d else v

/-- `x || d` for an optional integer (used for the Monte Carlo base seed). -/
def jsOrZ (x : Option ℤ) (d : ℤ) : ℤ :=
  match x with
  | none => d
  | some v => if v = 0 then d else v

/-- `Math.round`: round half up, `⌊x + 1/2⌋`. -/
def jsRound (q : ℚ) : ℚ := (⌊q + 1/2⌋ : ℤ)

/-- `Math.pow` restricted to the integer exponents at which the engine calls
it (all exponents are integer-valued at every call site, because ages are
rounded by the sanitizer and goal years are integer differences). -/
def qpow (b : ℚ) (e : ℚ) : ℚ := b ^ ⌊e⌋

/-- First value bound to key `a`, or the default `d` (JS `obj[a] || 0` and
`obj[a] ?? d` agree on the engine's non-negative-valued dictionaries). -/
def lookupD (l : List (String × ℚ)) (a : String) (d : ℚ) : ℚ :=
  match l.find? (fun p => p.1 == a) with
  | some p => p.2
  | none => d

/-- `Object.values(o).reduce((sum, v) => sum + v, 0)`. -/
def sumVals (l : List (String × ℚ)) : ℚ :=
  l.foldl (fun s p => s + p.2) 0

/-- Key list of an association list. -/
def keys (l : List (String × ℚ)) : List String := l.map (·.1)

/-- Value of an `Except`, with a default for the error case. -/
def okD {ε α : Type} (e : Except ε α) (d : α) : α :=
  match e with
  | .ok a => a
  | .error _ => d

/-! ## Numeric kernel: statistics (`math/statistics.ts`)

`Array.prototype.sort` with the numeric comparator is a stable sort; it is
modelled by `List.insertionSort (· ≤ ·)`, which is also stable, hence
produces the identical list. -/

/-- Ascending stable sort of rationals: `[...values].sort((a, b) => a - b)`. -/
def sortQ (values : List ℚ) : List ℚ := values.insertionSort (· ≤ ·)

/-- `mean`: arithmetic mean, `0` on the empty list. -/
def mean (values : List ℚ) : ℚ :=
  if values.length = 0 then 0
  else values.foldl (· + ·) 0 / values.length

/-- `median`: middle element of the sorted list (average of the two middle
elements for even length), `0` on the empty list. -/
def median (values : List ℚ) : ℚ :=
  if values.length = 0 then 0
  else if (sortQ values).length % 2 = 0 then
    ((sortQ values).getD ((sortQ values).length / 2 - 1) 0 +
     (sortQ values).getD ((sortQ values).length / 2) 0) / 2
  else (sortQ values).getD ((sortQ values).length / 2) 0

/-- `standardDeviation`: square root of the population variance; `Math.sqrt`
is supplied as the abstract parameter `sqrt`. -/
def standardDeviation (sqrt : ℚ → ℚ) (values : List ℚ) : ℚ :=
  if values.length = 0 then 0
  else
    let avg := mean values
    sqrt (mean (values.map (fun v => (v - avg) ^ 2)))

/-- The interpolation step of `percentile` (reached only for non-empty input
and `0 ≤ p ≤ 100`). -/
def percentileCompute (values : List ℚ) (p : ℚ) : ℚ :=
  let sorted := sortQ values
  let index : ℚ := p / 100 * ((values.length : ℚ) - 1)
  let lower := (⌊index⌋).toNat
  let upper := (⌈index⌉).toNat
  let weight := index - (⌊index⌋ : ℚ)
  sorted.getD lower 0 * (1 - weight) + sorted.getD upper 0 * weight

/-- `percentile(values, p)`: returns `0` for an empty input (checked first),
then rejects `p` outside `[0, 100]`, then linearly interpolates between
adjacent ranks of the sorted values. -/
def percentile (values : List ℚ) (p : ℚ) : Except EngineError ℚ :=
  if values.length = 0 then .ok 0
  else if p < 0 ∨ p > 100 then .error (.failure "Percentile must be 0-100")
  else .ok (percentileCompute values p)

/-- `min`: `Math.min(...values)` via a fold, `0` on the empty list. -/
def listMin (values : List ℚ) : ℚ :=
  match values with
  | [] => 0
  | x :: xs => xs.foldl Min.min x

/-- `max`: `Math.max(...values)` via a fold, `0` on the empty list. -/
def listMax (values : List ℚ) : ℚ :=
  match values with
  | [] => 0
  | x :: xs => xs.foldl Max.max x

/-! ## Numeric kernel: compound interest (`math/compound.ts`) -/

/-- `futureValue(pv, rate, periods) = pv · (1+rate)^periods`; rejects
negative present value or period count. -/
def futureValue (presentValue rate periods : ℚ) : Except EngineError ℚ :=
  if presentValue < 0 then .error (.failure "Present value must be non-negative")
  else if periods < 0 then .error (.failure "Periods must be non-negative")
  else .ok (presentValue * qpow (1 + rate) periods)

/-- `presentValueAnnuity(pmt, rate, periods) = pmt · (1 − (1+r)^(−n))/r`
with the zero-rate fallback `pmt · n`. -/
def presentValueAnnuity (payment rate periods : ℚ) : Except EngineError ℚ :=
  if payment < 0 then .error (.failure "Payment must be non-negative")
  else if periods < 0 then .error (.failure "Periods must be non-negative")
  else if rate = 0 then .ok (payment * periods)
  else .ok (payment * ((1 - qpow (1 + rate) (-periods)) / rate))

/-- `futureValueAnnuity(pmt, rate, periods, type)`: future value of an
annuity, multiplied by `(1+r)` in the default `due` mode. -/
def futureValueAnnuity (payment rate periods : ℚ) (due : Bool) : Except EngineError ℚ :=
  if payment < 0 then .error (.failure "Payment must be non-negative")
  else if periods < 0 then .error (.failure "Periods must be non-negative")
  else if rate = 0 then .ok (payment * periods)
  else
    let fv := payment * ((qpow (1 + rate) periods - 1) / rate)
    .ok (if due then fv * (1 + rate) else fv)

/-- `requiredSIP(target, annualRate, years, type)`: inverts the annuity-due
future value; in `monthly` mode uses rate/12 over years·12 periods. -/
def requiredSIP (targetAmount annualRate years : ℚ) (monthly : Bool) : Except EngineError ℚ :=
  if targetAmount ≤ 0 then .error (.failure "Target amount must be positive")
  else if years ≤ 0 then .error (.failure "Years must be positive")
  else
    let periods := if monthly then years * 12 else years
    let rate := if monthly then annualRate / 12 else annualRate
    if rate = 0 then .ok (targetAmount / periods)
    else .ok (targetAmount / (((qpow (1 + rate) periods - 1) / rate) * (1 + rate)))

/-- `nominalToReal`: exact Fisher identity `(1+nom)/(1+infl) − 1`. -/
def nominalToReal (nominalRate inflationRate : ℚ) : ℚ :=
  (1 + nominalRate) / (1 + inflationRate) - 1

/-! ## Assumptions bundle (`assumptions/types.ts`, `assumptions/india-2024.ts`)

Fields not consumed by any verified component (labels, categories, the
correlation matrix, regimes, effective date, the inflation regime
adjustments) are omitted from the embedding. -/

/-- A return distribution: annualized mean and volatility, in percent. -/
structure ReturnDist where
  mean : ℚ
  volatility : ℚ
deriving DecidableEq, Repr

/-- Per-asset-class parameters. -/
structure AssetClassParams where
  nominalReturn : ReturnDist
  realReturn : ReturnDist
  tradingCost : ℚ
deriving DecidableEq, Repr

/-- Inflation parameters. -/
structure InflationParams where
  mean : ℚ
  volatility : ℚ
  persistence : ℚ
deriving DecidableEq, Repr

/-- A market assumptions bundle. -/
structure MarketAssumptions where
  version : String
  region : String
  assetClasses : List (String × AssetClassParams)
  inflation : InflationParams
deriving DecidableEq, Repr

/-- The `(IN, 2024-Q4)` calibrated bundle (`INDIA_2024_Q4`). -/
def INDIA_2024_Q4 : MarketAssumptions :=
  { version := "2024-Q4"
    region := "IN"
    assetClasses :=
      [ ("equity-nifty50",
          { nominalReturn := { mean := 12, volatility := 18 }
            realReturn := { mean := 6, volatility := 96/5 }
            tradingCost := 10 })
      , ("debt-govt-10y",
          { nominalReturn := { mean := 36/5, volatility := 9/2 }
            realReturn := { mean := 6/5, volatility := 5 }
            tradingCost := 5 })
      , ("gold",
          { nominalReturn := { mean := 8, volatility := 15 }
            realReturn := { mean := 2, volatility := 31/2 }
            tradingCost := 50 })
      , ("cash",
          { nominalReturn := { mean := 4, volatility := 1/2 }
            realReturn := { mean := -2, volatility := 1/2 }
            tradingCost := 0 }) ]
    inflation := { mean := 6, volatility := 2, persistence := 3/5 } }

/-! ## Projection inputs and records (`projection/types.ts`) -/

/-- A one-time future expense `(year, amount, label)`. -/
structure FutureExpense where
  year : ℚ
  amount : ℚ
  label : String
deriving DecidableEq, Repr

/-- `ProjectionInputs`. -/
structure ProjectionInputs where
  currentAge : ℚ
  retirementAge : ℚ
  lifeExpectancy : ℚ
  currentSavings : ℚ
  monthlyInvestment : ℚ
  investmentGrowthRate : Option ℚ
  monthlyExpenses : ℚ
  expenseGrowthRate : Option ℚ
  assetAllocation : List (String × ℚ)
  futureExpenses : Option (List FutureExpense)
deriving DecidableEq, Repr

/-- `YearlyProjection`: one timeline record. -/
structure YearlyProjection where
  year : ℕ
  age : ℚ
  portfolioValue : ℚ
  income : ℚ
  expenses : ℚ
  netCashflow : ℚ
  contributions : ℚ
  withdrawals : ℚ
  investmentReturn : ℚ
  realReturn : ℚ
  savingsRate : Option ℚ
  withdrawalRate : Option ℚ
deriving DecidableEq, Repr

/-- The four-way success classification. -/
inductive SuccessMetric where
  | surplus
  | onTrack
  | shortfall
  | depletion
deriving DecidableEq, Repr

/-- `ProjectionResult` summary block. -/
structure ProjectionSummary where
  retirementCorpusNeeded : ℚ
  projectedCorpusAtRetirement : ℚ
  finalPortfolioValue : ℚ
  depletionAge : Option ℚ
  successMetric : SuccessMetric
deriving DecidableEq, Repr

/-- `ProjectionResult`. -/
structure ProjectionResult where
  timeline : List YearlyProjection
  summary : ProjectionSummary
deriving DecidableEq, Repr

/-- An all-zero record, used as the out-of-range default when indexing
timelines in theorem statements. -/
def emptyRecord : YearlyProjection :=
  { year := 0, age := 0, portfolioValue := 0, income := 0, expenses := 0
    netCashflow := 0, contributions := 0, withdrawals := 0
    investmentReturn := 0, realReturn := 0, savingsRate := none, withdrawalRate := none }

/-- Default result used when extracting the value of a failed projection. -/
def emptyResult : ProjectionResult :=
  { timeline := []
    summary := { retirementCorpusNeeded := 0, projectedCorpusAtRetirement := 0
                 finalPortfolioValue := 0, depletionAge := none
                 successMetric := .shortfall } }

/-! ## Validation (`projection/validation.ts`) -/

/-- The final loop of `validateInputs`: each allocation weight must lie in
`[0, 100]`; the first offender throws. -/
def checkWeights : List (String × ℚ) → Except EngineError Unit
  | [] => .ok ()
  | p :: rest =>
    if p.2 < 0 ∨ p.2 > 100 then
      .error (.validation "assetAllocation" (p.1 ++ " must be 0-100%"))
    else checkWeights rest

/-- `validateInputs`: throws a `ValidationError` naming the offending field
for age-range, negative-monetary and allocation violations, in source
order (the first failed check throws). -/
def validateInputs (inputs : ProjectionInputs) : Except EngineError Unit :=
  if inputs.currentAge < 18 ∨ inputs.currentAge > 100 then
    .error (.validation "currentAge" "Must be between 18 and 100")
  else if inputs.retirementAge ≤ inputs.currentAge then
    .error (.validation "retirementAge" "Must be greater than current age")
  else if inputs.lifeExpectancy ≤ inputs.retirementAge then
    .error (.validation "lifeExpectancy" "Must be greater than retirement age")
  else if inputs.currentSavings < 0 then
    .error (.validation "currentSavings" "Cannot be negative")
  else if inputs.monthlyInvestment < 0 then
    .error (.validation "monthlyInvestment" "Cannot be negative")
  else if inputs.monthlyExpenses < 0 then
    .error (.validation "monthlyExpenses" "Cannot be negative")
  else if |inputs.assetAllocation.foldl (fun s p => s + p.2) 0 - 100| > 1/100 then
    .error (.validation "assetAllocation" "Must sum to 100%")
  else checkWeights inputs.assetAllocation

/-- `sanitizeInputs`: rounds the three ages and clamps the three monetary
fields to be non-negative; all other fields pass through unchanged. -/
def sanitizeInputs (inputs : ProjectionInputs) : ProjectionInputs :=
  { inputs with
    currentAge := jsRound inputs.currentAge
    retirementAge := jsRound inputs.retirementAge
    lifeExpectancy := jsRound inputs.lifeExpectancy
    currentSavings := max 0 inputs.currentSavings
    monthlyInvestment := max 0 inputs.monthlyInvestment
    monthlyExpenses := max 0 inputs.monthlyExpenses }

/-! ## The shared yearly projection loop

`projectDeterministic` (`projection/deterministic.ts`) and
`runSingleSimulation` (`simulation/montecarlo.ts`) contain line-identical
year loops, differing only in how the year's portfolio return rate is
produced (a fixed expected rate vs. a sampled rate).  The embedding shares
the loop, parameterized by the rate function `rate : year ↦ fraction`. -/

/-- Inflation-adjusted annual expenses of year `year`, plus any one-time
future expenses scheduled there (each inflated by `(1+inflation)^year`). -/
def totalExpensesAt (inp : ProjectionInputs) (inflationRate expGrowth : ℚ)
    (year : ℕ) : ℚ :=
  inp.monthlyExpenses * 12 * (1 + expGrowth) ^ year +
    (match inp.futureExpenses with
     | none => 0
     | some l => (l.filter (fun e => e.year == (year : ℚ))).foldl
         (fun s e => s + e.amount * (1 + inflationRate) ^ year) 0)

/-- Contributions of year `year`: zero once retired, wage-grown otherwise. -/
def contributionAt (inp : ProjectionInputs) (invGrowth : ℚ) (year : ℕ) : ℚ :=
  if inp.retirementAge ≤ inp.currentAge + year then 0
  else inp.monthlyInvestment * 12 * (1 + invGrowth) ^ year

/-- Withdrawals of year `year`: the year's expenses once retired, else 0. -/
def withdrawalAt (inp : ProjectionInputs) (inflationRate expGrowth : ℚ)
    (year : ℕ) : ℚ :=
  if inp.retirementAge ≤ inp.currentAge + year then
    totalExpensesAt inp inflationRate expGrowth year
  else 0

/-- One year of the projection loop: build the yearly record from the
start-of-year portfolio value. -/
def stepRecord (rate : ℕ → ℚ) (inp : ProjectionInputs)
    (inflationRate invGrowth expGrowth : ℚ) (portfolio : ℚ) (year : ℕ) :
    YearlyProjection :=
  let totalExpenses := totalExpensesAt inp inflationRate expGrowth year
  let annualContribution := contributionAt inp invGrowth year
  let withdrawal := withdrawalAt inp inflationRate expGrowth year
  let investmentReturn := portfolio * rate year
  let netCashflow := annualContribution - withdrawal
  let updated := portfolio + investmentReturn + netCashflow
  let clamped := if updated < 0 then 0 else updated
  let realReturn := investmentReturn / (1 + inflationRate) ^ year
  { year := year, age := inp.currentAge + year, portfolioValue := clamped, income := 0
    expenses := totalExpenses, netCashflow := netCashflow
    contributions := annualContribution, withdrawals := withdrawal
    investmentReturn := investmentReturn, realReturn := realReturn
    savingsRate := none
    withdrawalRate := if 0 < clamped then some (withdrawal / (clamped + withdrawal)) else none }

/-- The year loop with early exit on post-retirement depletion; `fuel` is
the remaining number of years. -/
def projectLoop (rate : ℕ → ℚ) (inp : ProjectionInputs)
    (inflationRate invGrowth expGrowth : ℚ) :
    ℕ → ℕ → ℚ → List YearlyProjection
  | 0, _, _ => []
  | fuel + 1, year, portfolio =>
    let r := stepRecord rate inp inflationRate invGrowth expGrowth portfolio year
    if r.portfolioValue = 0 ∧ inp.retirementAge ≤ inp.currentAge + year then [r]
    else r :: projectLoop rate inp inflationRate invGrowth expGrowth fuel (year + 1) r.portfolioValue

/-- `lifeExpectancy − currentAge` as an iteration count (the sanitizer makes
it a non-negative integer for every input the loop is reached with). -/
def natYears (inp : ProjectionInputs) : ℕ :=
  (⌈inp.lifeExpectancy - inp.currentAge⌉).toNat

/-- Expected portfolio nominal return: allocation-weighted sum of per-asset
nominal means; throws on an asset id missing from the bundle. -/
def calculatePortfolioReturn (allocation : List (String × ℚ))
    (assumptions : MarketAssumptions) : Except EngineError ℚ :=
  allocation.foldlM
    (fun acc p =>
      match assumptions.assetClasses.find? (fun q => q.1 == p.1) with
      | none => .error (.failure ("Unknown asset: " ++ p.1))
      | some q => .ok (acc + p.2 / 100 * (q.2.nominalReturn.mean / 100)))
    0

/-- `projectDeterministic`: sanitize, validate, project year by year with
the fixed expected return, then summarize. -/
def projectDeterministic (rawInputs : ProjectionInputs)
    (assumptions : MarketAssumptions) : Except EngineError ProjectionResult :=
  let inputs := sanitizeInputs rawInputs
  match validateInputs inputs with
  | .error e => .error e
  | .ok _ =>
    match calculatePortfolioReturn inputs.assetAllocation assumptions with
    | .error e => .error e
    | .ok portfolioExpectedReturn =>
      let inflationRate := assumptions.inflation.mean / 100
      let investmentGrowth := jsOr inputs.investmentGrowthRate (inflationRate + 1/100)
      let expenseGrowth := jsOr inputs.expenseGrowthRate inflationRate
      let timeline := projectLoop (fun _ => portfolioExpectedReturn) inputs
        inflationRate investmentGrowth expenseGrowth (natYears inputs) 0 inputs.currentSavings
      let retirementYear := timeline.find? (fun y => y.age == inputs.retirementAge)
      let corpusAtRetirement := jsOr (retirementYear.map (·.portfolioValue)) 0
      let retirementYears := inputs.lifeExpectancy - inputs.retirementAge
      let retirementExpenses := inputs.monthlyExpenses * 12 *
        qpow (1 + inflationRate) (inputs.retirementAge - inputs.currentAge)
      let realReturn := nominalToReal portfolioExpectedReturn inflationRate
      match presentValueAnnuity retirementExpenses realReturn retirementYears with
      | .error e => .error e
      | .ok corpusNeeded =>
        let gap := corpusNeeded - corpusAtRetirement
        let finalValue := jsOr ((timeline.getLast?).map (·.portfolioValue)) 0
        let depletedYear := timeline.find?
          (fun y => y.portfolioValue == 0 && decide (inputs.retirementAge ≤ y.age))
        let successMetric :=
          if depletedYear.isSome then SuccessMetric.depletion
          else if gap < 0 then .surplus
          else if gap / corpusNeeded < 1/10 then .onTrack
          else .shortfall
        .ok { timeline := timeline
              summary := { retirementCorpusNeeded := corpusNeeded
                           projectedCorpusAtRetirement := corpusAtRetirement
                           finalPortfolioValue := finalValue
                           depletionAge := depletedYear.map (·.age)
                           successMetric := successMetric } }

/-! ## Monte Carlo simulator (`simulation/montecarlo.ts`, `simulation/types.ts`)

The path generator consumes one standard-normal draw per asset per year, in
allocation order, from a `SeededRandom` created with the path's seed.  The
draw sequence of a seeded generator is a fixed function of the seed and the
draw counter; since its values (Box–Muller over LCG uniforms) are
irrational, it enters the embedding as the abstract parameter
`g : seed → draw index → value`, over which every theorem quantifies.
In year `y` the asset at position `j` of the allocation receives draw
number `y · numAssets + j`. -/

/-- `MonteCarloConfig`. -/
structure MonteCarloConfig where
  numSimulations : ℕ
  seed : Option ℤ
  timeStepMonthly : Bool
  includeRegimeSwitching : Option Bool
deriving DecidableEq, Repr

/-- `SimulationPath`. -/
structure SimulationPath where
  id : ℕ
  timeline : List YearlyProjection
  terminalValue : ℚ
  depletedAt : Option ℕ
deriving DecidableEq, Repr

/-- Default path used for out-of-range indexing in theorem statements; the
source would throw a `TypeError` there (all claims have ≥ 1 simulation). -/
def emptyPath : SimulationPath :=
  { id := 0, timeline := [], terminalValue := 0, depletedAt := none }

/-- Distribution block of a Monte Carlo result. -/
structure TerminalValueDistribution where
  mean : ℚ
  median : ℚ
  std : ℚ
  values : List ℚ
deriving DecidableEq, Repr

/-- Shortfall-risk block of a Monte Carlo result. -/
structure ShortfallRisk where
  probability : ℚ
  averageShortfall : ℚ
  worstCase : ℚ
deriving DecidableEq, Repr

/-- The five percentile paths. -/
structure PercentilePaths where
  p10 : List YearlyProjection
  p25 : List YearlyProjection
  p50 : List YearlyProjection
  p75 : List YearlyProjection
  p90 : List YearlyProjection
deriving DecidableEq, Repr

/-- `MonteCarloResult`. -/
structure MonteCarloResult where
  successProbability : ℚ
  medianOutcome : ℚ
  percentiles : PercentilePaths
  terminalValueDistribution : TerminalValueDistribution
  shortfallRisk : ShortfallRisk
deriving DecidableEq, Repr

/-- Per-asset weight (as a fraction) and nominal-return distribution, in
allocation order.  An asset id missing from the bundle would make the
source throw a `TypeError` on first use; the embedding substitutes a zero
distribution, and every claim about actual values runs on allocations whose
ids all exist in the bundle. -/
def assetParamsOf (inp : ProjectionInputs) (assumptions : MarketAssumptions) :
    List (ℚ × ReturnDist) :=
  inp.assetAllocation.map fun p =>
    (p.2 / 100,
      match assumptions.assetClasses.find? (fun q => q.1 == p.1) with
      | some q => q.2.nominalReturn
      | none => { mean := 0, volatility := 0 })

/-- The sampled portfolio return of one simulated year:
`Σ weightₐ · (μₐ + σₐ · N(0,1))` with the draws indexed as described above. -/
def mcYearReturn (g : ℤ → ℕ → ℚ) (seed : ℤ) (assetParams : List (ℚ × ReturnDist))
    (year : ℕ) : ℚ :=
  assetParams.enum.foldl
    (fun acc jp =>
      acc + jp.2.1 * (jp.2.2.mean / 100 + jp.2.2.volatility / 100 *
        g seed (year * assetParams.length + jp.1)))
    0

/-- `runSingleSimulation`: the same year loop as the deterministic
projector, with the sampled yearly return. -/
def runSingleSimulation (g : ℤ → ℕ → ℚ) (inputs : ProjectionInputs)
    (assumptions : MarketAssumptions) (seed : ℤ) : List YearlyProjection :=
  let inflationRate := assumptions.inflation.mean / 100
  let investmentGrowth := jsOr inputs.investmentGrowthRate (inflationRate + 1/100)
  let expenseGrowth := jsOr inputs.expenseGrowthRate inflationRate
  let assetParams := assetParamsOf inputs assumptions
  projectLoop (mcYearReturn g seed assetParams) inputs
    inflationRate investmentGrowth expenseGrowth (natYears inputs) 0 inputs.currentSavings

/-- The path order used by `aggregateResults`: ascending terminal value. -/
def pathLE (a b : SimulationPath) : Prop := a.terminalValue ≤ b.terminalValue

instance : DecidableRel pathLE :=
  fun a b => inferInstanceAs (Decidable (a.terminalValue ≤ b.terminalValue))

instance : IsTotal SimulationPath pathLE := ⟨fun a b => le_total a.terminalValue b.terminalValue⟩

instance : IsTrans SimulationPath pathLE := ⟨fun _ _ _ h h' => le_trans h h'⟩

/-- `aggregateResults`: success probability, the five percentile paths
(`sortedSims[⌊N·p⌋]` of the stable sort by terminal value), the
terminal-value distribution, and the shortfall block.  `Math.sqrt` enters
as the parameter `sqrt`. -/
def aggregateResults (sqrt : ℚ → ℚ) (simulations : List SimulationPath) :
    MonteCarloResult :=
  let successes := (simulations.filter fun sim =>
    match sim.timeline.getLast? with
    | some y => decide (0 < y.portfolioValue)
    | none => false).length
  let successProbability := (successes : ℚ) / simulations.length
  let terminalValues := simulations.map (·.terminalValue)
  let sortedSims := simulations.insertionSort pathLE
  let p10Index := simulations.length * 10 / 100
  let p25Index := simulations.length * 25 / 100
  let p50Index := simulations.length * 50 / 100
  let p75Index := simulations.length * 75 / 100
  let p90Index := simulations.length * 90 / 100
  let failedSims := simulations.filter (·.depletedAt.isSome)
  let avgShortfall :=
    if 0 < failedSims.length then
      mean (failedSims.map fun sim =>
        match sim.timeline.find? (fun y => sim.depletedAt == some y.year) with
        | some depletedYear => |depletedYear.portfolioValue|
        | none => 0)
    else 0
  { successProbability := successProbability
    medianOutcome := (sortedSims.getD p50Index emptyPath).terminalValue
    percentiles :=
      { p10 := (sortedSims.getD p10Index emptyPath).timeline
        p25 := (sortedSims.getD p25Index emptyPath).timeline
        p50 := (sortedSims.getD p50Index emptyPath).timeline
        p75 := (sortedSims.getD p75Index emptyPath).timeline
        p90 := (sortedSims.getD p90Index emptyPath).timeline }
    terminalValueDistribution :=
      { mean := mean terminalValues
        median := okD (percentile terminalValues 50) 0
        std := standardDeviation sqrt terminalValues
        values := terminalValues }
    shortfallRisk :=
      { probability := 1 - successProbability
        averageShortfall := avgShortfall
        worstCase := (sortedSims.getD 0 emptyPath).terminalValue } }

/-- `runMonteCarlo`: sanitize and validate, run `numSimulations` paths with
per-path seed `(config.seed || 42) + i`, then aggregate. -/
def runMonteCarlo (sqrt : ℚ → ℚ) (g : ℤ → ℕ → ℚ) (rawInputs : ProjectionInputs)
    (assumptions : MarketAssumptions) (config : MonteCarloConfig) :
    Except EngineError MonteCarloResult :=
  let inputs := sanitizeInputs rawInputs
  match validateInputs inputs with
  | .error e => .error e
  | .ok _ =>
    let simulations := (List.range config.numSimulations).map fun (sim : ℕ) =>
      let seed := jsOrZ config.seed 42 + (sim : ℤ)
      let timeline := runSingleSimulation g inputs assumptions seed
      { id := sim
        timeline := timeline
        terminalValue := jsOr ((timeline.getLast?).map (·.portfolioValue)) 0
        depletedAt := (timeline.find?
          (fun y => y.portfolioValue == 0 && decide (inputs.retirementAge ≤ y.age))).map (·.year) }
    .ok (aggregateResults sqrt simulations)

/-! ## Goal allocator (`goals/types.ts`, `goals/optimizer.ts`)

The source reads the current calendar year from the clock
(`new Date().getFullYear()`); the embedding takes it as the explicit
parameter `currentYear`.  Conflict and recommendation messages carry
locale-formatted amounts in the source; the embedding keeps the fixed
message prefixes and drops the formatted numbers (no claim concerns the
message texts). -/

/-- Goal priority. -/
inductive Priority where
  | high
  | medium
  | low
deriving DecidableEq, Repr

/-- `priorityOrder`: high ↦ 3, medium ↦ 2, low ↦ 1. -/
def priorityOrder : Priority → ℕ
  | .high => 3
  | .medium => 2
  | .low => 1

/-- `GoalInput`. -/
structure GoalInput where
  id : String
  name : String
  targetAmount : ℚ
  targetYear : ℤ
  priority : Priority
  currentSavings : Option ℚ
deriving DecidableEq, Repr

/-- Feasibility classification of one goal. -/
inductive Feasibility where
  | onTrack
  | tight
  | underfunded
  | impossible
deriving DecidableEq, Repr

/-- `GoalAllocation`. -/
structure GoalAllocation where
  goalId : String
  monthlySIP : ℚ
  requiredSIP : ℚ
  feasibility : Feasibility
  projectedValue : ℚ
  shortfall : ℚ
deriving DecidableEq, Repr

/-- `GoalAllocationResult`.  `budgetUtilization` is `Option ℚ`, where `none`
models the IEEE `NaN` that the source's `0/0` produces. -/
structure GoalAllocationResult where
  allocations : List GoalAllocation
  totalMonthly : ℚ
  unallocated : ℚ
  budgetUtilization : Option ℚ
  conflicts : List String
  recommendations : List String
deriving DecidableEq, Repr

/-- Default allocation record for out-of-range indexing in statements. -/
def emptyAllocation : GoalAllocation :=
  { goalId := "", monthlySIP := 0, requiredSIP := 0, feasibility := .impossible
    projectedValue := 0, shortfall := 0 }

/-- Default allocation result for the error case in statements. -/
def emptyGoalResult : GoalAllocationResult :=
  { allocations := [], totalMonthly := 0, unallocated := 0
    budgetUtilization := some 0, conflicts := [], recommendations := [] }

/-- Per-goal requirement computed in step 1 of the allocator. -/
structure GoalRequirement where
  goalId : String
  name : String
  requiredSIP : ℚ
  priority : Priority
  targetAmount : ℚ
  years : ℤ
deriving DecidableEq, Repr

/-- `goals.map` with a throwing body: the first thrown error propagates,
otherwise the mapped list is returned. -/
def mapExcept (f : GoalInput → Except EngineError GoalRequirement) :
    List GoalInput → Except EngineError (List GoalRequirement)
  | [] => .ok []
  | g :: rest =>
    match f g with
    | .error e => .error e
    | .ok r =>
      match mapExcept f rest with
      | .error e => .error e
      | .ok rs => .ok (r :: rs)

/-- Step 1 of the allocator for one goal: inflate the target, grow existing
savings at the fixed 10% planning return, and derive the required monthly
SIP; throws when the target year is not in the future. -/
def mkGoalRequirement (assumptions : MarketAssumptions) (currentYear : ℤ)
    (goal : GoalInput) : Except EngineError GoalRequirement :=
  let years := goal.targetYear - currentYear
  if years ≤ 0 then
    .error (.failure ("Goal " ++ goal.id ++ " has invalid target year (must be in future)"))
  else
    let inflationRate := assumptions.inflation.mean / 100
    let fv := goal.targetAmount * (1 + inflationRate) ^ years
    let expectedReturn : ℚ := 1/10
    let currentSavings := jsOr goal.currentSavings 0
    let futureValueOfSavings := currentSavings * (1 + expectedReturn) ^ years
    let remainingNeeded := max 0 (fv - futureValueOfSavings)
    match (if 0 < remainingNeeded then requiredSIP remainingNeeded expectedReturn (years : ℚ) true
           else .ok 0) with
    | .error e => .error e
    | .ok required =>
      .ok { goalId := goal.id, name := goal.name, requiredSIP := required
            priority := goal.priority, targetAmount := fv, years := years }

/-- The sort order of step 2: higher priority first, ties by shorter
timeline.  This is `comparator(a, b) ≤ 0` for the source's comparator, so
the stable `insertionSort` by it equals the JS stable `Array.sort`. -/
def reqLE (a b : GoalRequirement) : Prop :=
  if priorityOrder a.priority = priorityOrder b.priority then a.years ≤ b.years
  else priorityOrder b.priority < priorityOrder a.priority

instance : DecidableRel reqLE := fun a b => by
  unfold reqLE; infer_instance

/-- The projected-value factor the source applies to the granted monthly
SIP: `((1.10^years − 1) / (0.10/12)) · (1 + 0.10/12)` (annual compounding
factor over `years` periods combined with the monthly rate). -/
def projectedSIPFactor (years : ℤ) : ℚ :=
  (((11/10 : ℚ)) ^ years - 1) / ((1/10) / 12) * (1 + (1/10) / 12)

/-- Step 5 of the allocator for one goal: projected value from the granted
SIP plus grown current savings, and the resulting shortfall. -/
def mkAllocation (goals : List GoalInput) (req : GoalRequirement)
    (allocated : ℚ) (feasibility : Feasibility) : GoalAllocation :=
  let projectedFromSIP := if 0 < allocated then allocated * projectedSIPFactor req.years else 0
  let goalSavings :=
    match goals.find? (fun g => g.id == req.goalId) with
    | some goal => jsOr goal.currentSavings 0
    | none => 0
  let projectedFromSavings := goalSavings * ((11/10 : ℚ)) ^ req.years
  let totalProjected := projectedFromSIP + projectedFromSavings
  { goalId := req.goalId, monthlySIP := allocated, requiredSIP := req.requiredSIP
    feasibility := feasibility, projectedValue := totalProjected
    shortfall := max 0 (req.targetAmount - totalProjected) }

/-- Steps 3–5 of the allocator: greedy allocation over the sorted
requirements, returning the final remaining budget, the allocation records
and the conflict messages, in order. -/
def allocLoop (goals : List GoalInput) (remaining : ℚ) :
    List GoalRequirement → ℚ × List GoalAllocation × List String
  | [] => (remaining, [], [])
  | req :: rest =>
    let branch : ℚ × Feasibility × ℚ × List String :=
      if req.requiredSIP ≤ remaining then
        (req.requiredSIP, .onTrack, remaining - req.requiredSIP, [])
      else if 0 < remaining then
        (remaining,
         if 7/10 < remaining / req.requiredSIP then .tight else .underfunded,
         0,
         ["Goal \x22" ++ req.name ++ "\x22 cannot be fully funded"])
      else
        (0, .impossible, 0, ["Goal \x22" ++ req.name ++ "\x22 cannot be funded with current budget"])
    let a := mkAllocation goals req branch.1 branch.2.1
    let next := allocLoop goals branch.2.2.1 rest
    (next.1, a :: next.2.1, branch.2.2.2 ++ next.2.2)

/-- `allocateGoalBudget`: reject a negative budget, compute requirements,
sort by priority then urgency, allocate greedily, and aggregate. -/
def allocateGoalBudget (goals : List GoalInput) (monthlyBudget : ℚ)
    (assumptions : MarketAssumptions) (currentYear : ℤ) :
    Except EngineError GoalAllocationResult :=
  if monthlyBudget < 0 then .error (.failure "Monthly budget cannot be negative")
  else if goals.length = 0 then
    .ok { allocations := [], totalMonthly := 0, unallocated := monthlyBudget
          budgetUtilization := some 0, conflicts := [], recommendations := [] }
  else
    match mapExcept (mkGoalRequirement assumptions currentYear) goals with
    | .error e => .error e
    | .ok requirements =>
      let sorted := requirements.insertionSort reqLE
      let result := allocLoop goals monthlyBudget sorted
      let remaining := result.1
      let totalRequired := requirements.foldl (fun s r => s + r.requiredSIP) 0
      let recommendations :=
        if monthlyBudget < totalRequired then
          ["Increase monthly budget to fully fund all goals"] ++
          (if 0 < (result.2.1.filter (fun a => a.feasibility ≠ .onTrack)).length then
            ["Consider deferring lower-priority goals"] else [])
        else if 0 < remaining then
          ["Surplus available for additional savings or new goals"]
        else []
      .ok { allocations := result.2.1
            totalMonthly := monthlyBudget - remaining
            unallocated := remaining
            budgetUtilization :=
              if monthlyBudget = 0 then none
              else some ((monthlyBudget - remaining) / monthlyBudget * 100)
            conflicts := result.2.2
            recommendations := recommendations }

/-! ## Rebalancer (`rebalancing/types.ts`, `rebalancing/rebalancer.ts`) -/

/-- `RebalancingConfig`. -/
structure RebalancingConfig where
  driftThreshold : ℚ
  minimumTradeAmount : Option ℚ
  tradingCostBps : Option ℚ
deriving DecidableEq, Repr

/-- Trade side. -/
inductive TradeAction where
  | buy
  | sell
deriving DecidableEq, Repr

/-- `Trade`. -/
structure Trade where
  asset : String
  action : TradeAction
  amount : ℚ
  currentValue : ℚ
  targetValue : ℚ
deriving DecidableEq, Repr

/-- `RebalancingResult`.  For an empty target allocation the source's
`Math.max()` yields `−Infinity` for `maxDrift`; the embedding stores `0`
there, and every theorem concerns non-empty targets. -/
structure RebalancingResult where
  needsRebalancing : Bool
  drifts : List (String × ℚ)
  maxDrift : ℚ
  trades : List Trade
  estimatedCost : ℚ
  impactOnReturn : ℚ
deriving DecidableEq, Repr

/-- Largest absolute value in a list (`Math.max(...map(Math.abs))`). -/
def maxAbs (l : List ℚ) : ℚ :=
  match l.map abs with
  | [] => 0
  | x :: xs => xs.foldl Max.max x

/-- The per-asset trade decision of step 4: trade only when the drift
exceeds 1 percentage point and the trade amount reaches the minimum. -/
def tradeFor (currentHoldings targetAllocation : List (String × ℚ))
    (totalValue minimumTrade : ℚ) (p : String × ℚ) : Option Trade :=
  if 1 < |p.2| then
    let targetValue := lookupD targetAllocation p.1 0 / 100 * totalValue
    let currentValue := lookupD currentHoldings p.1 0
    let tradeAmount := targetValue - currentValue
    if minimumTrade ≤ |tradeAmount| then
      some { asset := p.1
             action := if 0 < tradeAmount then .buy else .sell
             amount := |tradeAmount|
             currentValue := currentValue
             targetValue := targetValue }
    else none
  else none

/-- `generateRebalancingTrades`. -/
def generateRebalancingTrades (currentHoldings targetAllocation : List (String × ℚ))
    (assumptions : MarketAssumptions) (config : RebalancingConfig) :
    RebalancingResult :=
  let totalValue := sumVals currentHoldings
  if totalValue = 0 then
    { needsRebalancing := false, drifts := [], maxDrift := 0, trades := []
      estimatedCost := 0, impactOnReturn := 0 }
  else
    let drifts := targetAllocation.map fun p =>
      (p.1, lookupD currentHoldings p.1 0 / totalValue * 100 - p.2)
    let maxDrift := maxAbs (drifts.map (·.2))
    if maxDrift < config.driftThreshold then
      { needsRebalancing := false, drifts := drifts, maxDrift := maxDrift, trades := []
        estimatedCost := 0, impactOnReturn := 0 }
    else
      let minimumTrade := jsOr config.minimumTradeAmount 10000
      let trades := drifts.filterMap
        (tradeFor currentHoldings targetAllocation totalValue minimumTrade)
      let estimatedCost := trades.foldl
        (fun total trade =>
          total + trade.amount *
            jsOr config.tradingCostBps
              (jsOr ((assumptions.assetClasses.find? (fun q => q.1 == trade.asset)).map
                (fun q => q.2.tradingCost)) 10) / 10000)
        0
      { needsRebalancing := true, drifts := drifts, maxDrift := maxDrift
        trades := trades, estimatedCost := estimatedCost
        impactOnReturn := estimatedCost / totalValue * 10000 }

/-- Executing the emitted trades at face value: each traded asset's holding
becomes the trade's computed target value (a `BUY`/`SELL` of
`|target − current|` applied to `current`); untraded holdings are
unchanged, and trades for assets absent from the holdings add them. -/
def applyTrades (holdings : List (String × ℚ)) (trades : List Trade) :
    List (String × ℚ) :=
  (holdings.map fun p =>
    match trades.find? (fun t => t.asset == p.1) with
    | some t => (p.1, t.targetValue)
    | none => p) ++
  ((trades.filter fun t => !(holdings.any (fun p => p.1 == t.asset))).map
    fun t => (t.asset, t.targetValue))

/-- Drift of the asset with target percentage `tpct`, measured on the given
holdings against the given total value. -/
def driftAgainst (holdings : List (String × ℚ)) (total : ℚ)
    (a : String) (tpct : ℚ) : ℚ :=
  100 * lookupD holdings a 0 / total - tpct

end Engine

deriving instance DecidableEq for Except

namespace Engine

/-! ## Helper lemmas about folds, sorting and lookups -/

theorem foldl_min_le_init (xs : List ℚ) (x : ℚ) : xs.foldl Min.min x ≤ x := by
  induction xs generalizing x with
  | nil => exact le_refl x
  | cons y ys ih => exact le_trans (ih (min x y)) (min_le_left x y)

theorem foldl_min_le_mem (xs : List ℚ) (x : ℚ) :
    ∀ y ∈ xs, xs.foldl Min.min x ≤ y := by
  induction xs generalizing x with
  | nil => intro y hy; cases hy
  | cons z zs ih =>
    intro y hy
    rcases List.mem_cons.mp hy with h | h
    · subst h
      exact le_trans (foldl_min_le_init zs (min x y)) (min_le_right x y)
    · exact ih (min x z) y h

theorem foldl_min_mem_or (xs : List ℚ) (x : ℚ) :
    xs.foldl Min.min x = x ∨ xs.foldl Min.min x ∈ xs := by
  induction xs generalizing x with
  | nil => exact Or.inl rfl
  | cons y ys ih =>
    rcases ih (min x y) with h | h
    · rcases min_choice x y with hm | hm
      · exact Or.inl (by rw [List.foldl_cons, h, hm])
      · exact Or.inr (by rw [List.foldl_cons, h, hm]; exact List.mem_cons_self y ys)
    · exact Or.inr (List.mem_cons_of_mem y h)

theorem foldl_max_init_le (xs : List ℚ) (x : ℚ) : x ≤ xs.foldl Max.max x := by
  induction xs generalizing x with
  | nil => exact le_refl x
  | cons y ys ih => exact le_trans (le_max_left x y) (ih (max x y))

theorem foldl_max_mem_le (xs : List ℚ) (x : ℚ) :
    ∀ y ∈ xs, y ≤ xs.foldl Max.max x := by
  induction xs generalizing x with
  | nil => intro y hy; cases hy
  | cons z zs ih =>
    intro y hy
    rcases List.mem_cons.mp hy with h | h
    · subst h
      exact le_trans (le_max_right x y) (foldl_max_init_le zs (max x y))
    · exact ih (max x z) y h

theorem foldl_max_mem_or (xs : List ℚ) (x : ℚ) :
    xs.foldl Max.max x = x ∨ xs.foldl Max.max x ∈ xs := by
  induction xs generalizing x with
  | nil => exact Or.inl rfl
  | cons y ys ih =>
    rcases ih (max x y) with h | h
    · rcases max_choice x y with hm | hm
      · exact Or.inl (by rw [List.foldl_cons, h, hm])
      · exact Or.inr (by rw [List.foldl_cons, h, hm]; exact List.mem_cons_self y ys)
    · exact Or.inr (List.mem_cons_of_mem y h)

theorem listMin_mem {v : List ℚ} (h : v ≠ []) : listMin v ∈ v := by
  cases v with
  | nil => exact absurd rfl h
  | cons x xs =>
    rcases foldl_min_mem_or xs x with h' | h'
    · rw [show listMin (x :: xs) = xs.foldl Min.min x from rfl, h']
      exact List.mem_cons_self x xs
    · exact List.mem_cons_of_mem x h'

theorem listMin_le {v : List ℚ} : ∀ x ∈ v, listMin v ≤ x := by
  cases v with
  | nil => intro x hx; cases hx
  | cons y ys =>
    intro x hx
    rcases List.mem_cons.mp hx with h | h
    · exact h ▸ foldl_min_le_init ys y
    · exact foldl_min_le_mem ys y x h

theorem listMax_mem {v : List ℚ} (h : v ≠ []) : listMax v ∈ v := by
  cases v with
  | nil => exact absurd rfl h
  | cons x xs =>
    rcases foldl_max_mem_or xs x with h' | h'
    · rw [show listMax (x :: xs) = xs.foldl Max.max x from rfl, h']
      exact List.mem_cons_self x xs
    · exact List.mem_cons_of_mem x h'

theorem le_listMax {v : List ℚ} : ∀ x ∈ v, x ≤ listMax v := by
  cases v with
  | nil => intro x hx; cases hx
  | cons y ys =>
    intro x hx
    rcases List.mem_cons.mp hx with h | h
    · exact h ▸ foldl_max_init_le ys y
    · exact foldl_max_mem_le ys y x h

theorem sortQ_perm (v : List ℚ) : List.Perm (sortQ v) v := List.perm_insertionSort _ v

theorem sortQ_sorted (v : List ℚ) : (sortQ v).Sorted (· ≤ ·) :=
  List.sorted_insertionSort _ v

theorem sortQ_length (v : List ℚ) : (sortQ v).length = v.length :=
  (sortQ_perm v).length_eq

theorem sorted_getD_zero_le {s : List ℚ} (hs : s.Sorted (· ≤ ·)) :
    ∀ x ∈ s, s.getD 0 0 ≤ x := by
  cases s with
  | nil => intro x hx; cases hx
  | cons a t =>
    intro x hx
    rcases List.mem_cons.mp hx with h | h
    · exact h ▸ le_refl a
    · exact List.rel_of_sorted_cons hs x h

theorem le_sorted_getD_last {s : List ℚ} (hs : s.Sorted (· ≤ ·)) :
    ∀ x ∈ s, x ≤ s.getD (s.length - 1) 0 := by
  induction s with
  | nil => intro x hx; cases hx
  | cons a t ih =>
    intro x hx
    cases t with
    | nil =>
      rcases List.mem_cons.mp hx with h | h
      · exact h ▸ le_refl a
      · cases h
    | cons b u =>
      have hlen : (a :: b :: u).length - 1 = (b :: u).length := rfl
      have hget : (a :: b :: u).getD ((a :: b :: u).length - 1) 0 =
          (b :: u).getD ((b :: u).length - 1) 0 := by
        rw [hlen]
        rfl
      rw [hget]
      rcases List.mem_cons.mp hx with h | h
      · subst h
        have hbu : (b :: u).getD ((b :: u).length - 1) 0 ∈ (b :: u) := by
          have hlt : (b :: u).length - 1 < (b :: u).length := by
            simp [Nat.sub_lt]
          rw [List.getD_eq_getElem _ _ hlt]
          exact List.getElem_mem hlt
        exact List.rel_of_sorted_cons hs _ hbu
      · exact ih hs.of_cons x h

theorem sortQ_getD_zero {v : List ℚ} (h : v ≠ []) : (sortQ v).getD 0 0 = listMin v := by
  have hs : sortQ v ≠ [] := by
    intro he
    exact h (List.length_eq_zero.mp (by rw [← sortQ_length v, he]; rfl))
  apply le_antisymm
  · exact sorted_getD_zero_le (sortQ_sorted v) _ ((sortQ_perm v).symm.subset (listMin_mem h))
  · apply listMin_le
    have hmem : (sortQ v).getD 0 0 ∈ sortQ v := by
      have hlt : 0 < (sortQ v).length := List.length_pos.mpr hs
      rw [List.getD_eq_getElem _ _ hlt]
      exact List.getElem_mem hlt
    exact (sortQ_perm v).subset hmem

theorem sortQ_getD_last {v : List ℚ} (h : v ≠ []) :
    (sortQ v).getD (v.length - 1) 0 = listMax v := by
  have hs : sortQ v ≠ [] := by
    intro he
    exact h (List.length_eq_zero.mp (by rw [← sortQ_length v, he]; rfl))
  have hidx : v.length - 1 = (sortQ v).length - 1 := by rw [sortQ_length]
  rw [hidx]
  apply le_antisymm
  · apply le_listMax
    have hlt : (sortQ v).length - 1 < (sortQ v).length := by
      have : 0 < (sortQ v).length := List.length_pos.mpr hs
      omega
    have hmem : (sortQ v).getD ((sortQ v).length - 1) 0 ∈ sortQ v := by
      rw [List.getD_eq_getElem _ _ hlt]
      exact List.getElem_mem hlt
    exact (sortQ_perm v).subset hmem
  · exact le_sorted_getD_last (sortQ_sorted v) _ ((sortQ_perm v).symm.subset (listMax_mem h))

end Engine

namespace Engine

/-! ## Claim C8: percentile endpoints and range rejection -/

theorem percentile_zero {v : List ℚ} (h : v ≠ []) : percentile v 0 = .ok (listMin v) := by
  have hlen : v.length ≠ 0 := by simpa [List.length_eq_zero] using h
  rw [percentile, if_neg hlen, if_neg (by norm_num)]
  congr 1
  rw [percentileCompute]
  simp only [zero_div, zero_mul, Int.floor_zero, Int.toNat_zero, Int.ceil_zero, Int.cast_zero,
    sub_zero, mul_one, mul_zero, add_zero]
  exact sortQ_getD_zero h

theorem percentile_hundred {v : List ℚ} (h : v ≠ []) : percentile v 100 = .ok (listMax v) := by
  have hlen : v.length ≠ 0 := by simpa [List.length_eq_zero] using h
  have hpos : 1 ≤ v.length := Nat.one_le_iff_ne_zero.mpr hlen
  rw [percentile, if_neg hlen, if_neg (by norm_num)]
  congr 1
  rw [percentileCompute]
  have hidx : (100 : ℚ) / 100 * ((v.length : ℚ) - 1) = ((v.length - 1 : ℕ) : ℚ) := by
    rw [Nat.cast_sub hpos]
    norm_num
  rw [hidx]
  simp only [Int.floor_natCast, Int.ceil_natCast, Int.toNat_natCast, Int.cast_natCast,
    sub_self, mul_zero, add_zero, sub_zero, mul_one]
  exact sortQ_getD_last h

/-- C8: for a non-empty vector `percentile` returns the minimum at `p = 0`
and the maximum at `p = 100`, and rejects `p` outside `[0, 100]` with an
error; for the empty vector, however, it returns `0` for every `p` (the
emptiness check precedes the range check), so the rejection clause of the
claim holds only for non-empty input. -/
theorem c8_percentile_contract (v : List ℚ) (p : ℚ) :
    (v ≠ [] → percentile v 0 = .ok (listMin v) ∧ percentile v 100 = .ok (listMax v)) ∧
    (v ≠ [] → p < 0 ∨ 100 < p → percentile v p = .error (.failure "Percentile must be 0-100")) ∧
    (v = [] → percentile v p = .ok 0) := by
  refine ⟨fun h => ⟨percentile_zero h, percentile_hundred h⟩, fun h hp => ?_, fun h => ?_⟩
  · have hlen : v.length ≠ 0 := by simpa [List.length_eq_zero] using h
    rw [percentile, if_neg hlen, if_pos hp]
  · subst h
    rfl

/-- C8 counterexample: on the empty vector with `p = −10 < 0`, `percentile`
returns `0` instead of raising the out-of-range error the claim demands for
every input vector. -/
theorem c8_percentile_empty_no_range_error :
    percentile ([] : List ℚ) (-10) = .ok 0 := rfl

/-- C8 witness: the contract applied at `v = [3, 1, 2]`, `p = 150`. -/
theorem c8_percentile_contract_witness :
    percentile [3, 1, 2] 0 = .ok (listMin [3, 1, 2]) ∧
    percentile [3, 1, 2] 100 = .ok (listMax [3, 1, 2]) ∧
    percentile [3, 1, 2] 150 = .error (.failure "Percentile must be 0-100") :=
  ⟨((c8_percentile_contract [3, 1, 2] 150).1 (by decide)).1,
   ((c8_percentile_contract [3, 1, 2] 150).1 (by decide)).2,
   (c8_percentile_contract [3, 1, 2] 150).2.1 (by decide) (by norm_num)⟩

end Engine

namespace Engine

/-! ## Claim C10: a zero base seed falls back to the default seed 42 -/

/-- C10: `runMonteCarlo` with `config.seed = 0` returns exactly the result
of `config.seed = 42`, for every input, assumptions bundle, simulation
count and remaining configuration: the JS `config.seed || 42` treats the
falsy base seed `0` as absent. -/
theorem c10_seed_zero_equals_seed_42 (sqrt : ℚ → ℚ) (g : ℤ → ℕ → ℚ)
    (rawInputs : ProjectionInputs) (assumptions : MarketAssumptions)
    (n : ℕ) (ts : Bool) (irs : Option Bool) :
    runMonteCarlo sqrt g rawInputs assumptions
      { numSimulations := n, seed := some 0, timeStepMonthly := ts, includeRegimeSwitching := irs } =
    runMonteCarlo sqrt g rawInputs assumptions
      { numSimulations := n, seed := some 42, timeStepMonthly := ts, includeRegimeSwitching := irs } := by
  have hseed : jsOrZ (some 0) 42 = jsOrZ (some 42) 42 := by norm_num [jsOrZ]
  simp only [runMonteCarlo, hseed]

/-! ## Claim C3: negative monetary inputs are clamped, not rejected -/

/-- C3 (amended): `projectDeterministic` never raises the negative-monetary
`ValidationError`: `sanitizeInputs` clamps the three monetary fields to 0
before validation runs, so the projection of an input with negative
monetary fields equals the projection of the clamped input; the
field-naming `ValidationError` exists only in `validateInputs`, which
reports it when applied to the raw input directly. -/
theorem c3_negative_monetary_clamped (raw : ProjectionInputs) (asm : MarketAssumptions) :
    (projectDeterministic raw asm =
      projectDeterministic
        { raw with currentSavings := max 0 raw.currentSavings
                   monthlyInvestment := max 0 raw.monthlyInvestment
                   monthlyExpenses := max 0 raw.monthlyExpenses } asm) ∧
    (18 ≤ raw.currentAge → raw.currentAge ≤ 100 → raw.currentAge < raw.retirementAge →
     raw.retirementAge < raw.lifeExpectancy → raw.currentSavings < 0 →
     validateInputs raw = .error (.validation "currentSavings" "Cannot be negative")) := by
  constructor
  · have hmax : ∀ x : ℚ, max 0 (max 0 x) = max 0 x := fun x => by rw [← max_assoc, max_self]
    have hs : sanitizeInputs
        { raw with currentSavings := max 0 raw.currentSavings
                   monthlyInvestment := max 0 raw.monthlyInvestment
                   monthlyExpenses := max 0 raw.monthlyExpenses } = sanitizeInputs raw := by
      simp [sanitizeInputs, hmax]
    unfold projectDeterministic
    rw [hs]
  · intro h1 h2 h3 h4 h5
    rw [validateInputs]
    rw [if_neg (by push_neg; exact ⟨h1, h2⟩), if_neg (not_le.mpr h3), if_neg (not_le.mpr h4),
      if_pos h5]

/-- C3 witness: the clamp identity and the direct-validator error at a
concrete input with `currentSavings = −5`. -/
theorem c3_negative_monetary_clamped_witness :
    (projectDeterministic
      { currentAge := 30, retirementAge := 31, lifeExpectancy := 33, currentSavings := -5
        monthlyInvestment := 0, investmentGrowthRate := none, monthlyExpenses := 10
        expenseGrowthRate := none
        assetAllocation := [("equity-nifty50", 70), ("debt-govt-10y", 30)]
        futureExpenses := none } INDIA_2024_Q4 =
     projectDeterministic
      { currentAge := 30, retirementAge := 31, lifeExpectancy := 33
        currentSavings := max 0 (-5 : ℚ)
        monthlyInvestment := max 0 (0 : ℚ), investmentGrowthRate := none
        monthlyExpenses := max 0 (10 : ℚ), expenseGrowthRate := none
        assetAllocation := [("equity-nifty50", 70), ("debt-govt-10y", 30)]
        futureExpenses := none } INDIA_2024_Q4) ∧
    validateInputs
      { currentAge := 30, retirementAge := 31, lifeExpectancy := 33, currentSavings := -5
        monthlyInvestment := 0, investmentGrowthRate := none, monthlyExpenses := 10
        expenseGrowthRate := none
        assetAllocation := [("equity-nifty50", 70), ("debt-govt-10y", 30)]
        futureExpenses := none } = .error (.validation "currentSavings" "Cannot be negative") :=
  ⟨(c3_negative_monetary_clamped _ INDIA_2024_Q4).1,
   (c3_negative_monetary_clamped _ INDIA_2024_Q4).2 (by norm_num) (by norm_num) (by norm_num)
     (by norm_num) (by norm_num)⟩

/-- C3 counterexample: the claim demands a `ValidationError` and no result
for a negative `current_savings`, but `projectDeterministic` succeeds on
one (the field is silently clamped to 0). -/
theorem c3_negative_savings_projection_succeeds :
    (projectDeterministic
      { currentAge := 30, retirementAge := 31, lifeExpectancy := 33, currentSavings := -5
        monthlyInvestment := 0, investmentGrowthRate := none, monthlyExpenses := 10
        expenseGrowthRate := none
        assetAllocation := [("equity-nifty50", 70), ("debt-govt-10y", 30)]
        futureExpenses := none } INDIA_2024_Q4).isOk = true := by with_unfolding_all decide

end Engine

namespace Engine

/-! ## Structure of the yearly records (towards C2, C4, C9) -/

theorem stepRecord_year (rate : ℕ → ℚ) (inp : ProjectionInputs)
    (inflationRate invGrowth expGrowth p : ℚ) (y : ℕ) :
    (stepRecord rate inp inflationRate invGrowth expGrowth p y).year = y := rfl

theorem stepRecord_expenses (rate : ℕ → ℚ) (inp : ProjectionInputs)
    (inflationRate invGrowth expGrowth p : ℚ) (y : ℕ) :
    (stepRecord rate inp inflationRate invGrowth expGrowth p y).expenses =
      totalExpensesAt inp inflationRate expGrowth y := rfl

theorem stepRecord_withdrawals (rate : ℕ → ℚ) (inp : ProjectionInputs)
    (inflationRate invGrowth expGrowth p : ℚ) (y : ℕ) :
    (stepRecord rate inp inflationRate invGrowth expGrowth p y).withdrawals =
      withdrawalAt inp inflationRate expGrowth y := rfl

theorem stepRecord_contributions (rate : ℕ → ℚ) (inp : ProjectionInputs)
    (inflationRate invGrowth expGrowth p : ℚ) (y : ℕ) :
    (stepRecord rate inp inflationRate invGrowth expGrowth p y).contributions =
      contributionAt inp invGrowth y := rfl

theorem stepRecord_investmentReturn (rate : ℕ → ℚ) (inp : ProjectionInputs)
    (inflationRate invGrowth expGrowth p : ℚ) (y : ℕ) :
    (stepRecord rate inp inflationRate invGrowth expGrowth p y).investmentReturn =
      p * rate y := rfl

theorem stepRecord_portfolioValue (rate : ℕ → ℚ) (inp : ProjectionInputs)
    (inflationRate invGrowth expGrowth p : ℚ) (y : ℕ) :
    (stepRecord rate inp inflationRate invGrowth expGrowth p y).portfolioValue =
      (if p + p * rate y +
            (contributionAt inp invGrowth y - withdrawalAt inp inflationRate expGrowth y) < 0
       then 0
       else p + p * rate y +
            (contributionAt inp invGrowth y - withdrawalAt inp inflationRate expGrowth y)) := rfl

theorem stepRecord_withdrawalRate (rate : ℕ → ℚ) (inp : ProjectionInputs)
    (inflationRate invGrowth expGrowth p : ℚ) (y : ℕ) :
    (stepRecord rate inp inflationRate invGrowth expGrowth p y).withdrawalRate =
      (if 0 < (stepRecord rate inp inflationRate invGrowth expGrowth p y).portfolioValue
       then some (withdrawalAt inp inflationRate expGrowth y /
         ((stepRecord rate inp inflationRate invGrowth expGrowth p y).portfolioValue +
          withdrawalAt inp inflationRate expGrowth y))
       else none) := rfl

/-- Every recorded end-of-year portfolio value is clamped to be ≥ 0. -/
theorem stepRecord_pv_nonneg (rate : ℕ → ℚ) (inp : ProjectionInputs)
    (inflationRate invGrowth expGrowth p : ℚ) (y : ℕ) :
    0 ≤ (stepRecord rate inp inflationRate invGrowth expGrowth p y).portfolioValue := by
  rw [stepRecord_portfolioValue]
  split
  · exact le_refl 0
  · next hu => exact le_of_not_lt hu

/-- When the record's withdrawal rate is defined, it equals the withdrawal
divided by the start-of-year portfolio plus the year's investment return
plus its contributions. -/
theorem stepRecord_wdRate_eq (rate : ℕ → ℚ) (inp : ProjectionInputs)
    (inflationRate invGrowth expGrowth p : ℚ) (y : ℕ) (w : ℚ)
    (h : (stepRecord rate inp inflationRate invGrowth expGrowth p y).withdrawalRate = some w) :
    w = (stepRecord rate inp inflationRate invGrowth expGrowth p y).withdrawals /
        (p + (stepRecord rate inp inflationRate invGrowth expGrowth p y).investmentReturn +
         (stepRecord rate inp inflationRate invGrowth expGrowth p y).contributions) := by
  rw [stepRecord_withdrawalRate] at h
  rw [stepRecord_withdrawals, stepRecord_investmentReturn, stepRecord_contributions]
  split at h
  · next hpos =>
    rw [stepRecord_portfolioValue] at hpos
    injection h with hw
    rw [← hw]
    rw [stepRecord_portfolioValue]
    split at hpos
    · exact absurd hpos (lt_irrefl 0)
    · next hu =>
      rw [if_neg hu]
      congr 1
      ring
  · exact absurd h (by simp)

/-- Every element of the loop output is a `stepRecord` for its year. -/
theorem projectLoop_get?_shape (rate : ℕ → ℚ) (inp : ProjectionInputs)
    (inflationRate invGrowth expGrowth : ℚ) :
    ∀ (fuel year : ℕ) (p0 : ℚ) (k : ℕ) (r : YearlyProjection),
      (projectLoop rate inp inflationRate invGrowth expGrowth fuel year p0).get? k = some r →
      ∃ p, r = stepRecord rate inp inflationRate invGrowth expGrowth p (year + k) := by
  intro fuel
  induction fuel with
  | zero =>
    intro year p0 k r h
    simp [projectLoop] at h
  | succ n ih =>
    intro year p0 k r h
    simp only [projectLoop] at h
    split at h
    · cases k with
      | zero =>
        refine ⟨p0, ?_⟩
        simpa using h.symm
      | succ m => simp at h
    · cases k with
      | zero =>
        refine ⟨p0, ?_⟩
        simpa using h.symm
      | succ m =>
        rw [List.get?_cons_succ] at h
        obtain ⟨p, hp⟩ := ih (year + 1) _ m r h
        refine ⟨p, ?_⟩
        rw [hp]
        congr 1
        omega

end Engine

namespace Engine

/-- Start-of-year portfolio of the year at index `k` of a timeline whose
initial portfolio was `s0`: the previous record's end-of-year value. -/
def startOfYearPortfolio (s0 : ℚ) (tl : List YearlyProjection) : ℕ → ℚ
  | 0 => s0
  | k + 1 => ((tl.get? k).map (·.portfolioValue)).getD 0

theorem startOfYearPortfolio_cons (s0 : ℚ) (r0 : YearlyProjection)
    (rest : List YearlyProjection) (m : ℕ) :
    startOfYearPortfolio s0 (r0 :: rest) (m + 1) =
      startOfYearPortfolio r0.portfolioValue rest m := by
  cases m with
  | zero => rfl
  | succ j => rfl

/-- Chain property of the loop: every defined withdrawal rate equals the
withdrawal divided by (start-of-year portfolio + return + contributions). -/
theorem projectLoop_wdRate (rate : ℕ → ℚ) (inp : ProjectionInputs)
    (inflationRate invGrowth expGrowth : ℚ) :
    ∀ (fuel year : ℕ) (p0 : ℚ) (k : ℕ) (r : YearlyProjection) (w : ℚ),
      (projectLoop rate inp inflationRate invGrowth expGrowth fuel year p0).get? k = some r →
      r.withdrawalRate = some w →
      w = r.withdrawals /
          (startOfYearPortfolio p0
            (projectLoop rate inp inflationRate invGrowth expGrowth fuel year p0) k +
           r.investmentReturn + r.contributions) := by
  intro fuel
  induction fuel with
  | zero =>
    intro year p0 k r w h _
    simp [projectLoop] at h
  | succ n ih =>
    intro year p0 k r w h hw
    simp only [projectLoop] at h ⊢
    by_cases hstop :
        (stepRecord rate inp inflationRate invGrowth expGrowth p0 year).portfolioValue = 0 ∧
        inp.retirementAge ≤ inp.currentAge + year
    · rw [if_pos hstop] at h ⊢
      cases k with
      | zero =>
        have hr : r = stepRecord rate inp inflationRate invGrowth expGrowth p0 year := by
          simpa using h.symm
        subst hr
        exact stepRecord_wdRate_eq rate inp inflationRate invGrowth expGrowth p0 year w hw
      | succ m => simp at h
    · rw [if_neg hstop] at h ⊢
      cases k with
      | zero =>
        have hr : r = stepRecord rate inp inflationRate invGrowth expGrowth p0 year := by
          simpa using h.symm
        subst hr
        exact stepRecord_wdRate_eq rate inp inflationRate invGrowth expGrowth p0 year w hw
      | succ m =>
        rw [List.get?_cons_succ] at h
        rw [startOfYearPortfolio_cons]
        exact ih (year + 1)
          ((stepRecord rate inp inflationRate invGrowth expGrowth p0 year).portfolioValue)
          m r w h hw

/-- A successful deterministic projection's timeline is the shared year loop
run with some fixed expected-return rate. -/
theorem projectDeterministic_ok_timeline {raw : ProjectionInputs}
    {asm : MarketAssumptions} {res : ProjectionResult}
    (h : projectDeterministic raw asm = .ok res) :
    ∃ pr : ℚ, res.timeline = projectLoop (fun _ => pr) (sanitizeInputs raw)
        (asm.inflation.mean / 100)
        (jsOr (sanitizeInputs raw).investmentGrowthRate (asm.inflation.mean / 100 + 1/100))
        (jsOr (sanitizeInputs raw).expenseGrowthRate (asm.inflation.mean / 100))
        (natYears (sanitizeInputs raw)) 0 (sanitizeInputs raw).currentSavings := by
  cases hv : validateInputs (sanitizeInputs raw) with
  | error e =>
    simp only [projectDeterministic, hv] at h
    cases h
  | ok u =>
    cases hc : calculatePortfolioReturn (sanitizeInputs raw).assetAllocation asm with
    | error e =>
      simp only [projectDeterministic, hv, hc] at h
      cases h
    | ok pr =>
      refine ⟨pr, ?_⟩
      cases hp : presentValueAnnuity
          ((sanitizeInputs raw).monthlyExpenses * 12 *
            qpow (1 + asm.inflation.mean / 100)
              ((sanitizeInputs raw).retirementAge - (sanitizeInputs raw).currentAge))
          (nominalToReal pr (asm.inflation.mean / 100))
          ((sanitizeInputs raw).lifeExpectancy - (sanitizeInputs raw).retirementAge) with
      | error e =>
        simp only [projectDeterministic, hv, hc, hp] at h
        cases h
      | ok corpusNeeded =>
        simp only [projectDeterministic, hv, hc, hp] at h
        injection h with h'
        rw [← h']

end Engine

namespace Engine

theorem getD_eq_get? (l : List YearlyProjection) (k : ℕ) (d : YearlyProjection) :
    l.getD k d = ((l.get? k).getD d) := by
  simp [List.getD_eq_getElem?_getD, List.get?_eq_getElem?]

/-- Every record of the shared loop has a non-negative portfolio value. -/
theorem projectLoop_getD_nonneg (rate : ℕ → ℚ) (inp : ProjectionInputs)
    (inflationRate invGrowth expGrowth : ℚ) (fuel year : ℕ) (p0 : ℚ) (k : ℕ) :
    0 ≤ ((projectLoop rate inp inflationRate invGrowth expGrowth fuel year p0).getD
          k emptyRecord).portfolioValue := by
  rw [getD_eq_get?]
  cases hk : (projectLoop rate inp inflationRate invGrowth expGrowth fuel year p0).get? k with
  | none => exact le_refl 0
  | some r =>
    obtain ⟨p, hp⟩ :=
      projectLoop_get?_shape rate inp inflationRate invGrowth expGrowth fuel year p0 k r hk
    simpa [hp] using stepRecord_pv_nonneg rate inp inflationRate invGrowth expGrowth p (year + k)

/-- C9: every `portfolio_value` recorded by the deterministic projector and
by every Monte Carlo path is ≥ 0, for every input, assumptions bundle,
seed, and standard-normal draw sequence (the pre-record clamp guarantees
it unconditionally). -/
theorem c9_portfolio_values_nonneg :
    (∀ (raw : ProjectionInputs) (asm : MarketAssumptions) (k : ℕ),
      0 ≤ (((okD (projectDeterministic raw asm) emptyResult).timeline).getD
            k emptyRecord).portfolioValue) ∧
    (∀ (g : ℤ → ℕ → ℚ) (inputs : ProjectionInputs) (asm : MarketAssumptions)
        (seed : ℤ) (k : ℕ),
      0 ≤ ((runSingleSimulation g inputs asm seed).getD k emptyRecord).portfolioValue) := by
  constructor
  · intro raw asm k
    cases hres : projectDeterministic raw asm with
    | error e => simp [okD, emptyResult, emptyRecord]
    | ok res =>
      obtain ⟨pr, htl⟩ := projectDeterministic_ok_timeline hres
      show 0 ≤ ((res.timeline).getD k emptyRecord).portfolioValue
      rw [htl]
      exact projectLoop_getD_nonneg _ _ _ _ _ _ _ _ _
  · intro g inputs asm seed k
    simp only [runSingleSimulation]
    exact projectLoop_getD_nonneg _ _ _ _ _ _ _ _ _

end Engine

namespace Engine

/-- C2: in both the deterministic projector and every Monte Carlo path,
whenever a yearly record's `withdrawal_rate` is defined it equals the
year's withdrawals divided by (start-of-year portfolio + investment return
+ contributions), i.e. by the portfolio before the withdrawal (the code's
`withdrawal / (portfolio + withdrawal)` over the clamped end-of-year value
coincides with this whenever the rate is defined). -/
theorem c2_withdrawal_rate_pre_withdrawal_portfolio :
    (∀ (raw : ProjectionInputs) (asm : MarketAssumptions) (k : ℕ) (w : ℚ),
      (((okD (projectDeterministic raw asm) emptyResult).timeline).getD
          k emptyRecord).withdrawalRate = some w →
      w = (((okD (projectDeterministic raw asm) emptyResult).timeline).getD
            k emptyRecord).withdrawals /
          (startOfYearPortfolio (sanitizeInputs raw).currentSavings
            ((okD (projectDeterministic raw asm) emptyResult).timeline) k +
           (((okD (projectDeterministic raw asm) emptyResult).timeline).getD
              k emptyRecord).investmentReturn +
           (((okD (projectDeterministic raw asm) emptyResult).timeline).getD
              k emptyRecord).contributions)) ∧
    (∀ (g : ℤ → ℕ → ℚ) (inputs : ProjectionInputs) (asm : MarketAssumptions)
        (seed : ℤ) (k : ℕ) (w : ℚ),
      ((runSingleSimulation g inputs asm seed).getD k emptyRecord).withdrawalRate = some w →
      w = ((runSingleSimulation g inputs asm seed).getD k emptyRecord).withdrawals /
          (startOfYearPortfolio inputs.currentSavings (runSingleSimulation g inputs asm seed) k +
           ((runSingleSimulation g inputs asm seed).getD k emptyRecord).investmentReturn +
           ((runSingleSimulation g inputs asm seed).getD k emptyRecord).contributions)) := by
  constructor
  · intro raw asm k w hw
    cases hres : projectDeterministic raw asm with
    | error e =>
      rw [hres] at hw
      simp [okD, emptyResult, emptyRecord] at hw
    | ok res =>
      show w = ((res.timeline).getD k emptyRecord).withdrawals /
          (startOfYearPortfolio (sanitizeInputs raw).currentSavings res.timeline k +
           ((res.timeline).getD k emptyRecord).investmentReturn +
           ((res.timeline).getD k emptyRecord).contributions)
      rw [hres] at hw
      replace hw : ((res.timeline).getD k emptyRecord).withdrawalRate = some w := hw
      obtain ⟨pr, htl⟩ := projectDeterministic_ok_timeline hres
      rw [htl] at hw ⊢
      rw [getD_eq_get?] at hw ⊢
      cases hk : (projectLoop (fun _ => pr) (sanitizeInputs raw) (asm.inflation.mean / 100)
          (jsOr (sanitizeInputs raw).investmentGrowthRate (asm.inflation.mean / 100 + 1/100))
          (jsOr (sanitizeInputs raw).expenseGrowthRate (asm.inflation.mean / 100))
          (natYears (sanitizeInputs raw)) 0 (sanitizeInputs raw).currentSavings).get? k with
      | none =>
        rw [hk] at hw
        simp [emptyRecord] at hw
      | some r =>
        rw [hk] at hw
        exact projectLoop_wdRate _ _ _ _ _ _ _ _ k r w hk hw
  · intro g inputs asm seed k w hw
    simp only [runSingleSimulation] at hw ⊢
    rw [getD_eq_get?] at hw ⊢
    cases hk : (projectLoop (mcYearReturn g seed (assetParamsOf inputs asm)) inputs
        (asm.inflation.mean / 100)
        (jsOr inputs.investmentGrowthRate (asm.inflation.mean / 100 + 1/100))
        (jsOr inputs.expenseGrowthRate (asm.inflation.mean / 100))
        (natYears inputs) 0 inputs.currentSavings).get? k with
    | none =>
      rw [hk] at hw
      simp [emptyRecord] at hw
    | some r =>
      rw [hk] at hw
      exact projectLoop_wdRate _ _ _ _ _ _ _ _ k r w hk hw

end Engine

namespace Engine

/-- A successful `Except` computation equals `.ok` of its extracted value
(used to discharge result hypotheses in witnesses from a single `isOk`
evaluation). -/
theorem ok_of_isOk {ε α : Type} (e : Except ε α) (d : α) (h : e.isOk = true) :
    e = .ok (okD e d) := by
  cases e with
  | error e' => simp [Except.isOk, Except.toBool] at h
  | ok a => rfl

/-- A minimal single-asset assumptions bundle used by concrete witnesses. -/
def witnessAssumptions : MarketAssumptions :=
  { version := "T", region := "T"
    assetClasses :=
      [ ("x", { nominalReturn := { mean := 0, volatility := 0 }
                realReturn := { mean := 0, volatility := 0 }
                tradingCost := 0 }) ]
    inflation := { mean := 0, volatility := 0, persistence := 0 } }

/-- A small three-year projection input used by concrete witnesses. -/
def witnessInputs : ProjectionInputs :=
  { currentAge := 30, retirementAge := 31, lifeExpectancy := 33, currentSavings := 1000
    monthlyInvestment := 0, investmentGrowthRate := none, monthlyExpenses := 1
    expenseGrowthRate := none, assetAllocation := [("x", 100)], futureExpenses := none }

/-- C2 witness: a Monte Carlo path with an all-zero draw sequence; the
year-1 record withdraws 12 from a pre-withdrawal portfolio of 1000, and
its recorded `withdrawal_rate` is `12/1000 = 3/250`. -/
theorem c2_withdrawal_rate_witness :
    ((runSingleSimulation (fun _ _ => 0) witnessInputs witnessAssumptions 42).getD
        1 emptyRecord).withdrawalRate = some (3/250) ∧
    (3/250 : ℚ) =
      ((runSingleSimulation (fun _ _ => 0) witnessInputs witnessAssumptions 42).getD
          1 emptyRecord).withdrawals /
        (startOfYearPortfolio witnessInputs.currentSavings
            (runSingleSimulation (fun _ _ => 0) witnessInputs witnessAssumptions 42) 1 +
         ((runSingleSimulation (fun _ _ => 0) witnessInputs witnessAssumptions 42).getD
            1 emptyRecord).investmentReturn +
         ((runSingleSimulation (fun _ _ => 0) witnessInputs witnessAssumptions 42).getD
            1 emptyRecord).contributions) :=
  ⟨by with_unfolding_all decide,
   c2_withdrawal_rate_pre_withdrawal_portfolio.2 (fun _ _ => 0) witnessInputs
     witnessAssumptions 42 1 (3/250) (by with_unfolding_all decide)⟩

/-! ## Claim C4: an explicit zero expense growth rate is treated as absent -/

/-- The projection input of the C4 instance: explicit `expense_growth_rate
= 0` over the calibrated India bundle. -/
def c4Inputs : ProjectionInputs :=
  { currentAge := 30, retirementAge := 31, lifeExpectancy := 33, currentSavings := 1000
    monthlyInvestment := 0, investmentGrowthRate := none, monthlyExpenses := 10
    expenseGrowthRate := some 0
    assetAllocation := [("equity-nifty50", 70), ("debt-govt-10y", 30)]
    futureExpenses := none }

/-- C4 (amended): the caller-supplied expense growth rate is honoured only
when nonzero.  An explicit `expense_growth_rate = 0` is falsy for the JS
`||` default, so the inflation default applies and year `k`'s expenses are
`monthly_expenses · 12 · (1 + inflation)^k`, not constant (stated for
inputs with no one-time future expenses). -/
theorem c4_expense_growth_zero_falls_back_to_inflation
    (raw : ProjectionInputs) (asm : MarketAssumptions) (res : ProjectionResult) (k : ℕ)
    (hzero : raw.expenseGrowthRate = some 0)
    (hfut : raw.futureExpenses = none)
    (hres : projectDeterministic raw asm = .ok res)
    (hk : k < res.timeline.length) :
    (res.timeline.getD k emptyRecord).expenses =
      (sanitizeInputs raw).monthlyExpenses * 12 * (1 + asm.inflation.mean / 100) ^ k := by
  obtain ⟨pr, htl⟩ := projectDeterministic_ok_timeline hres
  rw [htl] at hk ⊢
  rw [getD_eq_get?]
  cases hget : (projectLoop (fun _ => pr) (sanitizeInputs raw) (asm.inflation.mean / 100)
      (jsOr (sanitizeInputs raw).investmentGrowthRate (asm.inflation.mean / 100 + 1/100))
      (jsOr (sanitizeInputs raw).expenseGrowthRate (asm.inflation.mean / 100))
      (natYears (sanitizeInputs raw)) 0 (sanitizeInputs raw).currentSavings).get? k with
  | none =>
    have hsome := List.get?_eq_get hk
    rw [hget] at hsome
    cases hsome
  | some r =>
    obtain ⟨p, hp⟩ := projectLoop_get?_shape _ _ _ _ _ _ _ _ k r hget
    have hexp : jsOr (sanitizeInputs raw).expenseGrowthRate (asm.inflation.mean / 100) =
        asm.inflation.mean / 100 := by
      have hzs : (sanitizeInputs raw).expenseGrowthRate = some 0 := hzero
      rw [hzs]
      simp [jsOr]
    have hfut' : (sanitizeInputs raw).futureExpenses = none := hfut
    rw [hp, Option.getD_some, stepRecord_expenses, hexp]
    simp [totalExpensesAt, hfut']

set_option maxRecDepth 10000 in
/-- C4 counterexample: on `c4Inputs` (explicit expense growth rate 0) the
year-1 expenses differ from `monthly_expenses · 12`, refuting the claimed
constancy. -/
theorem c4_counterexample_expenses_grow_despite_zero_rate :
    (projectDeterministic c4Inputs INDIA_2024_Q4).isOk = true ∧
    ((okD (projectDeterministic c4Inputs INDIA_2024_Q4) emptyResult).timeline.getD
        1 emptyRecord).expenses ≠ c4Inputs.monthlyExpenses * 12 := by
  with_unfolding_all decide

set_option maxRecDepth 10000 in
/-- C4 witness: the amended claim at `c4Inputs`, year 1. -/
theorem c4_expense_growth_witness :
    ((okD (projectDeterministic c4Inputs INDIA_2024_Q4) emptyResult).timeline.getD
        1 emptyRecord).expenses =
      (sanitizeInputs c4Inputs).monthlyExpenses * 12 *
        (1 + INDIA_2024_Q4.inflation.mean / 100) ^ 1 :=
  c4_expense_growth_zero_falls_back_to_inflation c4Inputs INDIA_2024_Q4
    (okD (projectDeterministic c4Inputs INDIA_2024_Q4) emptyResult) 1 rfl rfl
    (ok_of_isOk _ emptyResult (by with_unfolding_all decide))
    (by with_unfolding_all decide)

end Engine

namespace Engine

/-! ## Claim C6: budget utilization at zero budget -/

/-- A valid goal used by the C6 failing input. -/
def c6Goal : GoalInput :=
  { id := "g1", name := "G", targetAmount := 1000, targetYear := 2027
    priority := .high, currentSavings := none }

/-- C6 (code bug): with `monthly_budget = 0` and one valid goal, the
allocator returns `budget_utilization = (0 − 0)/0 · 100`, the IEEE `NaN`
(modelled as `none`), not the `0` the specification requires; the zero
guard exists only on the empty-goal-list path. -/
theorem c6_budget_utilization_nan_on_zero_budget :
    (allocateGoalBudget [c6Goal] 0 INDIA_2024_Q4 2026).isOk = true ∧
    (okD (allocateGoalBudget [c6Goal] 0 INDIA_2024_Q4 2026) emptyGoalResult).budgetUtilization
      = none := by
  with_unfolding_all decide

/-! ## Claim C7: median outcome vs. the terminal-value median -/

theorem getD_map_terminal (l : List SimulationPath) (i : ℕ) :
    ((l.map (·.terminalValue)).getD i 0) = (l.getD i emptyPath).terminalValue := by
  induction l generalizing i with
  | nil => cases i <;> rfl
  | cons x xs ih =>
    cases i with
    | zero => rfl
    | succ j => simpa using ih j

theorem sortPaths_map_terminal (sims : List SimulationPath) :
    (sims.insertionSort pathLE).map (·.terminalValue) =
      sortQ (sims.map (·.terminalValue)) :=
  List.map_insertionSort pathLE (fun a b : ℚ => a ≤ b) (fun p => p.terminalValue) sims
    (fun _ _ _ _ => Iff.rfl)

/-- C7 (amended): `median_outcome` is the terminal value of the sorted path
at index `⌊N/2⌋` (the upper median).  For every odd `N ≥ 1` it equals the
median of the terminal-value vector and coincides with
`terminal_value_distribution.median`; for even `N` the two sides
interpolate the two middle values and can differ. -/
theorem c7_median_outcome_odd (sqrt : ℚ → ℚ) (sims : List SimulationPath)
    (hne : sims ≠ []) (hodd : sims.length % 2 = 1) :
    (aggregateResults sqrt sims).medianOutcome = median (sims.map (·.terminalValue)) ∧
    (aggregateResults sqrt sims).medianOutcome =
      (aggregateResults sqrt sims).terminalValueDistribution.median := by
  have hlen : sims.length ≠ 0 := by simpa [List.length_eq_zero] using hne
  have hvlen : (sims.map (·.terminalValue)).length = sims.length := List.length_map _ _
  have hidx : sims.length * 50 / 100 = sims.length / 2 := by omega
  have h1 : (aggregateResults sqrt sims).medianOutcome =
      (sortQ (sims.map (·.terminalValue))).getD (sims.length / 2) 0 := by
    show ((sims.insertionSort pathLE).getD (sims.length * 50 / 100) emptyPath).terminalValue =
      (sortQ (sims.map (·.terminalValue))).getD (sims.length / 2) 0
    rw [hidx, ← sortPaths_map_terminal, getD_map_terminal]
  have h2 : median (sims.map (·.terminalValue)) =
      (sortQ (sims.map (·.terminalValue))).getD (sims.length / 2) 0 := by
    rw [median, if_neg (by rw [hvlen]; exact hlen)]
    rw [sortQ_length, hvlen]
    rw [if_neg (by omega)]
  have hm : sims.length = 2 * (sims.length / 2) + 1 := by omega
  have hcast : (50 : ℚ) / 100 * (((sims.map (·.terminalValue)).length : ℚ) - 1) =
      ((sims.length / 2 : ℕ) : ℚ) := by
    rw [hvlen]
    rw [show ((sims.length : ℚ)) = (((2 * (sims.length / 2) + 1 : ℕ) : ℚ)) by rw [← hm]]
    push_cast
    ring
  have h3 : (aggregateResults sqrt sims).terminalValueDistribution.median =
      (sortQ (sims.map (·.terminalValue))).getD (sims.length / 2) 0 := by
    show okD (percentile (sims.map (·.terminalValue)) 50) 0 = _
    rw [percentile, if_neg (by rw [hvlen]; exact hlen), if_neg (by norm_num)]
    show percentileCompute (sims.map (·.terminalValue)) 50 = _
    rw [percentileCompute]
    rw [hcast]
    simp only [Int.floor_natCast, Int.ceil_natCast, Int.toNat_natCast, Int.cast_natCast,
      sub_self, mul_zero, add_zero, sub_zero, mul_one]
  exact ⟨h1.trans h2.symm, h1.trans h3.symm⟩

/-- The two concrete paths of the C7 counterexample (terminal values 0 and
10). -/
def c7PathA : SimulationPath :=
  { id := 0, timeline := [{ emptyRecord with age := 31 }], terminalValue := 0
    depletedAt := some 0 }

/-- Second path of the C7 counterexample. -/
def c7PathB : SimulationPath :=
  { id := 1, timeline := [{ emptyRecord with age := 31, portfolioValue := 10 }]
    terminalValue := 10, depletedAt := none }

/-- C7 counterexample: with the two paths of terminal values 0 and 10
(`N = 2`), `median_outcome` is 10 (the upper-middle sorted element) while
the median of the terminal-value vector and
`terminal_value_distribution.median` are both 5. -/
theorem c7_median_outcome_even_counterexample :
    (aggregateResults (fun q => q) [c7PathA, c7PathB]).medianOutcome ≠
      median ((aggregateResults (fun q => q) [c7PathA, c7PathB]).terminalValueDistribution.values) ∧
    (aggregateResults (fun q => q) [c7PathA, c7PathB]).medianOutcome ≠
      (aggregateResults (fun q => q) [c7PathA, c7PathB]).terminalValueDistribution.median := by
  with_unfolding_all decide

/-- C7 witness: the amended claim at a single-path list. -/
theorem c7_median_outcome_odd_witness :
    (aggregateResults (fun q => q) [c7PathA]).medianOutcome =
      median ([c7PathA].map (·.terminalValue)) ∧
    (aggregateResults (fun q => q) [c7PathA]).medianOutcome =
      (aggregateResults (fun q => q) [c7PathA]).terminalValueDistribution.median :=
  c7_median_outcome_odd (fun q => q) [c7PathA] (by decide) (by decide)

end Engine

namespace Engine

/-! ## Claim C5: the goal allocator's projected values -/

theorem mapExcept_ok_mem (f : GoalInput → Except EngineError GoalRequirement) :
    ∀ (l : List GoalInput) (out : List GoalRequirement),
      mapExcept f l = .ok out → ∀ r ∈ out, ∃ g ∈ l, f g = .ok r := by
  intro l
  induction l with
  | nil =>
    intro out h r hr
    simp only [mapExcept] at h
    injection h with h'
    rw [← h'] at hr
    cases hr
  | cons g rest ih =>
    intro out h r hr
    simp only [mapExcept] at h
    cases hg : f g with
    | error e => rw [hg] at h; cases h
    | ok r0 =>
      rw [hg] at h
      cases hrest : mapExcept f rest with
      | error e => rw [hrest] at h; cases h
      | ok rs =>
        rw [hrest] at h
        injection h with h'
        rw [← h'] at hr
        rcases List.mem_cons.mp hr with h0 | h0
        · exact ⟨g, List.mem_cons_self g rest, h0 ▸ hg⟩
        · obtain ⟨g', hg', hfg'⟩ := ih rs hrest r h0
          exact ⟨g', List.mem_cons_of_mem g hg', hfg'⟩

theorem mkGoalRequirement_ok {asm : MarketAssumptions} {year : ℤ} {goal : GoalInput}
    {req : GoalRequirement} (h : mkGoalRequirement asm year goal = .ok req) :
    0 < goal.targetYear - year ∧ req.goalId = goal.id ∧
    req.years = goal.targetYear - year ∧
    req.targetAmount =
      goal.targetAmount * (1 + asm.inflation.mean / 100) ^ (goal.targetYear - year) := by
  simp only [mkGoalRequirement] at h
  split at h
  · cases h
  · next hyears =>
    split at h
    · cases h
    · injection h with h'
      rw [← h']
      exact ⟨lt_of_not_le (by omega), rfl, rfl, rfl⟩

theorem allocLoop_mem (goals : List GoalInput) :
    ∀ (reqs : List GoalRequirement) (remaining : ℚ) (a : GoalAllocation),
      a ∈ (allocLoop goals remaining reqs).2.1 →
      ∃ req ∈ reqs, ∃ allocated feasibility, a = mkAllocation goals req allocated feasibility := by
  intro reqs
  induction reqs with
  | nil =>
    intro remaining a ha
    simp [allocLoop] at ha
  | cons req rest ih =>
    intro remaining a ha
    simp only [allocLoop] at ha
    rcases List.mem_cons.mp ha with h0 | h0
    · exact ⟨req, List.mem_cons_self req rest, _, _, h0⟩
    · obtain ⟨req', hreq', alloc, feas, heq⟩ := ih _ a h0
      exact ⟨req', List.mem_cons_of_mem req hreq', alloc, feas, heq⟩

theorem find?_goal_nodup {goals : List GoalInput}
    (hnd : (goals.map (·.id)).Nodup) {g : GoalInput} (hg : g ∈ goals) :
    goals.find? (fun x => x.id == g.id) = some g := by
  induction goals with
  | nil => cases hg
  | cons x rest ih =>
    rcases List.mem_cons.mp hg with h0 | h0
    · subst h0
      simp [List.find?]
    · have hne : ¬(x.id == g.id) = true := by
        intro hbeq
        have hid : x.id = g.id := by simpa using hbeq
        have : g.id ∈ rest.map (·.id) := List.mem_map_of_mem _ h0
        rw [List.map_cons] at hnd
        exact (List.nodup_cons.mp hnd).1 (hid ▸ this)
      rw [List.find?]
      rw [Bool.of_not_eq_true hne]
      exact ih (by rw [List.map_cons] at hnd; exact (List.nodup_cons.mp hnd).2) h0

/-- Extraction of a successful allocator run: either there were no goals,
or the allocations are the greedy loop over the sorted requirements. -/
theorem allocateGoalBudget_ok {goals : List GoalInput} {budget : ℚ}
    {asm : MarketAssumptions} {year : ℤ} {res : GoalAllocationResult}
    (h : allocateGoalBudget goals budget asm year = .ok res) :
    res.allocations = [] ∨
    ∃ reqs, mapExcept (mkGoalRequirement asm year) goals = .ok reqs ∧
      res.allocations = (allocLoop goals budget (reqs.insertionSort reqLE)).2.1 := by
  rw [allocateGoalBudget] at h
  split at h
  · cases h
  · split at h
    · injection h with h'
      left
      rw [← h']
    · cases hreqs : mapExcept (mkGoalRequirement asm year) goals with
      | error e => rw [hreqs] at h; cases h
      | ok reqs =>
        rw [hreqs] at h
        injection h with h'
        right
        exact ⟨reqs, rfl, by rw [← h']⟩

/-- C5 (amended): each allocation's `projected_value` is the granted SIP
times the source's hybrid factor `((1.10^years − 1)/(0.10/12))·(1+0.10/12)`
— annual compounding combined with the monthly rate, not the monthly
annuity-due future value — plus the current savings grown at 10% annually
(the kernel `futureValue`); `shortfall = max(0, fv_target − projected)`.
Stated for goal lists with distinct ids and non-negative savings. -/
theorem c5_projected_value_formula (goals : List GoalInput) (budget : ℚ)
    (asm : MarketAssumptions) (year : ℤ) (res : GoalAllocationResult)
    (h : allocateGoalBudget goals budget asm year = .ok res)
    (hnd : (goals.map (·.id)).Nodup)
    (a : GoalAllocation) (ha : a ∈ res.allocations)
    (g : GoalInput) (hg : g ∈ goals) (hid : g.id = a.goalId)
    (hcs : 0 ≤ jsOr g.currentSavings 0) :
    a.projectedValue =
      (if 0 < a.monthlySIP then a.monthlySIP * projectedSIPFactor (g.targetYear - year)
       else 0) +
      okD (futureValue (jsOr g.currentSavings 0) (1/10) ((g.targetYear - year : ℤ) : ℚ)) 0 ∧
    a.shortfall =
      max 0 (g.targetAmount * (1 + asm.inflation.mean / 100) ^ (g.targetYear - year)
        - a.projectedValue) := by
  rcases allocateGoalBudget_ok h with hempty | ⟨reqs, hreqs, hallocs⟩
  · rw [hempty] at ha
    cases ha
  · rw [hallocs] at ha
    obtain ⟨req, hreqmem, alloc, feas, haeq⟩ := allocLoop_mem goals _ budget a ha
    have hreqmem' : req ∈ reqs := (List.perm_insertionSort reqLE reqs).subset hreqmem
    obtain ⟨g', hg', hmk⟩ := mapExcept_ok_mem _ goals reqs hreqs req hreqmem'
    obtain ⟨hyears, hgid, hyeq, hta⟩ := mkGoalRequirement_ok hmk
    have hagoalId : a.goalId = req.goalId := by rw [haeq]; rfl
    have hgg : g = g' := by
      apply List.inj_on_of_nodup_map hnd hg hg'
      rw [hid, hagoalId, hgid]
    subst hgg
    have hfind : goals.find? (fun x => x.id == req.goalId) = some g := by
      rw [hgid]
      exact find?_goal_nodup hnd hg
    have hsip : a.monthlySIP = alloc := by rw [haeq]; rfl
    have hfv : futureValue (jsOr g.currentSavings 0) (1/10) ((g.targetYear - year : ℤ) : ℚ) =
        .ok (jsOr g.currentSavings 0 * (11/10 : ℚ) ^ (g.targetYear - year)) := by
      rw [futureValue, if_neg (not_lt.mpr hcs), if_neg ?per]
      case per =>
        push_neg
        have : (0 : ℚ) ≤ ((g.targetYear - year : ℤ) : ℚ) := by
          exact_mod_cast le_of_lt hyears
        exact this
      congr 1
      rw [qpow, Int.floor_intCast]
      norm_num
    constructor
    · rw [hfv]
      have hpv : a.projectedValue =
          (if 0 < alloc then alloc * projectedSIPFactor req.years else 0) +
          (jsOr g.currentSavings 0) * (11/10 : ℚ) ^ req.years := by
        rw [haeq]
        show (if 0 < alloc then alloc * projectedSIPFactor req.years else 0) +
            (match goals.find? (fun x => x.id == req.goalId) with
             | some goal => jsOr goal.currentSavings 0
             | none => 0) * (11/10 : ℚ) ^ req.years = _
        rw [hfind]
      rw [hpv, hsip, hyeq]
      rfl
    · have hsf : a.shortfall = max 0 (req.targetAmount - a.projectedValue) := by
        rw [haeq]
        rfl
      rw [hsf, hta]

end Engine

namespace Engine

/-- The concrete goal of the C5 instance: ₹1000 in one year, no savings. -/
def c5Goal : GoalInput :=
  { id := "g1", name := "G", targetAmount := 1000, targetYear := 2027
    priority := .high, currentSavings := none }

theorem getD_mem_of_lt {α : Type} (l : List α) (i : ℕ) (d : α) (h : i < l.length) :
    l.getD i d ∈ l := by
  rw [List.getD_eq_getElem l d h]
  exact List.getElem_mem h

set_option maxRecDepth 3000 in
/-- C5 counterexample: with an ample budget the goal is granted exactly
`required_sip` (> 0) and has zero savings, yet its `shortfall` is not 0:
the projected value uses `1.10^years` with the monthly rate divisor
instead of the monthly annuity-due future value, so the projection of the
full required SIP falls short of the inflated target. -/
theorem c5_full_funding_nonzero_shortfall :
    ((okD (allocateGoalBudget [c5Goal] 100000 INDIA_2024_Q4 2026)
        emptyGoalResult).allocations.getD 0 emptyAllocation).monthlySIP =
      ((okD (allocateGoalBudget [c5Goal] 100000 INDIA_2024_Q4 2026)
        emptyGoalResult).allocations.getD 0 emptyAllocation).requiredSIP ∧
    0 < ((okD (allocateGoalBudget [c5Goal] 100000 INDIA_2024_Q4 2026)
        emptyGoalResult).allocations.getD 0 emptyAllocation).requiredSIP ∧
    ((okD (allocateGoalBudget [c5Goal] 100000 INDIA_2024_Q4 2026)
        emptyGoalResult).allocations.getD 0 emptyAllocation).shortfall ≠ 0 :=
  ⟨le_antisymm (by with_unfolding_all decide) (by with_unfolding_all decide),
   by with_unfolding_all decide, by with_unfolding_all decide⟩

set_option maxRecDepth 3000 in
/-- C5 witness: the amended formula at the concrete one-goal instance. -/
theorem c5_projected_value_formula_witness :
    ((okD (allocateGoalBudget [c5Goal] 100000 INDIA_2024_Q4 2026)
        emptyGoalResult).allocations.getD 0 emptyAllocation).projectedValue =
      (if 0 < ((okD (allocateGoalBudget [c5Goal] 100000 INDIA_2024_Q4 2026)
            emptyGoalResult).allocations.getD 0 emptyAllocation).monthlySIP
       then ((okD (allocateGoalBudget [c5Goal] 100000 INDIA_2024_Q4 2026)
            emptyGoalResult).allocations.getD 0 emptyAllocation).monthlySIP *
         projectedSIPFactor (c5Goal.targetYear - 2026)
       else 0) +
      okD (futureValue (jsOr c5Goal.currentSavings 0) (1/10)
        ((c5Goal.targetYear - 2026 : ℤ) : ℚ)) 0 ∧
    ((okD (allocateGoalBudget [c5Goal] 100000 INDIA_2024_Q4 2026)
        emptyGoalResult).allocations.getD 0 emptyAllocation).shortfall =
      max 0 (c5Goal.targetAmount * (1 + INDIA_2024_Q4.inflation.mean / 100) ^
          (c5Goal.targetYear - 2026) -
        ((okD (allocateGoalBudget [c5Goal] 100000 INDIA_2024_Q4 2026)
          emptyGoalResult).allocations.getD 0 emptyAllocation).projectedValue) :=
  c5_projected_value_formula [c5Goal] 100000 INDIA_2024_Q4 2026
    (okD (allocateGoalBudget [c5Goal] 100000 INDIA_2024_Q4 2026) emptyGoalResult)
    (ok_of_isOk _ emptyGoalResult (by with_unfolding_all decide)) (by decide)
    ((okD (allocateGoalBudget [c5Goal] 100000 INDIA_2024_Q4 2026)
        emptyGoalResult).allocations.getD 0 emptyAllocation)
    (getD_mem_of_lt _ 0 _ (by with_unfolding_all decide))
    c5Goal (by decide) (by with_unfolding_all decide) (by decide)

end Engine

namespace Engine

/-! ## Claim C1: the rebalancer contract -/

theorem find?_append_pairs (l1 l2 : List (String × ℚ)) (p : String × ℚ → Bool) :
    (l1 ++ l2).find? p =
      (match l1.find? p with
       | some x => some x
       | none => l2.find? p) := by
  induction l1 with
  | nil => rfl
  | cons x xs ih =>
    by_cases hx : p x
    · simp [List.find?, hx]
    · simp only [List.cons_append, List.find?, Bool.of_not_eq_true hx]
      exact ih

theorem find?_map_keyPreserving (φ : String × ℚ → String × ℚ)
    (hφ : ∀ p, (φ p).1 = p.1) (l : List (String × ℚ)) (a : String) :
    (l.map φ).find? (fun p => p.1 == a) =
      (l.find? (fun p => p.1 == a)).map φ := by
  induction l with
  | nil => rfl
  | cons x xs ih =>
    by_cases hx : (x.1 == a) = true
    · simp [List.find?, hφ, hx]
    · simp only [List.map_cons, List.find?, hφ, hx]
      exact ih

theorem find?_tradePairs (ts : List Trade) (a : String) :
    ((ts.map (fun t => (t.asset, t.targetValue))).find? (fun p => p.1 == a)) =
      (ts.find? (fun t => t.asset == a)).map (fun t => (t.asset, t.targetValue)) := by
  induction ts with
  | nil => rfl
  | cons t ts ih =>
    by_cases ht : (t.asset == a) = true
    · simp [List.find?, ht]
    · simp only [List.map_cons, List.find?, ht]
      exact ih

theorem find?_filter_of_imp (l : List Trade) (c q : Trade → Bool)
    (h : ∀ x, q x = true → c x = true) :
    (l.filter c).find? q = l.find? q := by
  induction l with
  | nil => rfl
  | cons x xs ih =>
    by_cases hq : q x = true
    · rw [List.filter_cons, if_pos (h x hq)]
      simp [List.find?, hq, ih]
    · by_cases hc : c x = true
      · rw [List.filter_cons, if_pos hc]
        simp only [List.find?, Bool.of_not_eq_true hq]
        exact ih
      · rw [List.filter_cons, if_neg hc]
        rw [ih]
        conv_rhs => rw [List.find?]
        rw [Bool.of_not_eq_true hq]

/-- Looking up an asset after executing the trades: a traded asset reads
its trade's target value, any other asset reads its original holding. -/
theorem lookupD_applyTrades (holdings : List (String × ℚ)) (ts : List Trade) (a : String) :
    lookupD (applyTrades holdings ts) a 0 =
      (match ts.find? (fun t => t.asset == a) with
       | some t => t.targetValue
       | none => lookupD holdings a 0) := by
  rw [lookupD, applyTrades]
  rw [find?_append_pairs]
  rw [find?_map_keyPreserving _ ?hphi]
  case hphi =>
    intro p
    cases hp : ts.find? (fun t => t.asset == p.1) <;> rfl
  cases hh : holdings.find? (fun p => p.1 == a) with
  | some p =>
    have hpa : p.1 = a := by
      have := List.find?_some hh
      simpa using this
    simp only [Option.map_some']
    rw [hpa]
    cases ht : ts.find? (fun t => t.asset == a) with
    | some t => rfl
    | none =>
      simp only
      rw [lookupD, hh]
  | none =>
    simp only [Option.map_none']
    rw [find?_tradePairs]
    rw [find?_filter_of_imp _ _ _ ?himp]
    case himp =>
      intro t hq
      have hta : t.asset = a := by simpa using hq
      rw [hta, Bool.not_eq_true', List.any_eq_false]
      intro p hp
      have hnp := List.find?_eq_none.mp hh p hp
      simpa using hnp
    cases ht : ts.find? (fun t => t.asset == a) with
    | some t => rfl
    | none =>
      simp only [Option.map_none']
      rw [lookupD, hh]

end Engine

namespace Engine

theorem find?_pair_mem_nodup {l : List (String × ℚ)} (hnd : (keys l).Nodup)
    {a : String} {v : ℚ} (hmem : (a, v) ∈ l) :
    l.find? (fun p => p.1 == a) = some (a, v) := by
  induction l with
  | nil => cases hmem
  | cons x rest ih =>
    rcases List.mem_cons.mp hmem with h0 | h0
    · rw [← h0]
      simp [List.find?]
    · have hne : ¬(x.1 == a) = true := by
        intro hbeq
        have hxa : x.1 = a := by simpa using hbeq
        have hmemk : a ∈ rest.map (·.1) :=
          List.mem_map_of_mem (·.1) h0
        rw [keys, List.map_cons] at hnd
        exact (List.nodup_cons.mp hnd).1 (hxa ▸ hmemk)
      rw [List.find?]
      rw [Bool.of_not_eq_true hne]
      exact ih (by rw [keys, List.map_cons] at hnd; exact (List.nodup_cons.mp hnd).2) h0

end Engine

namespace Engine

/-- If no pair of `l` has key `a`, the filterMap of a key-preserving trade
producer contains no trade for `a`. -/
theorem find?_filterMap_none {l : List (String × ℚ)} {F : String × ℚ → Option Trade}
    (hF : ∀ p t, F p = some t → t.asset = p.1) {a : String}
    (hnot : ∀ p ∈ l, p.1 ≠ a) :
    (l.filterMap F).find? (fun t => t.asset == a) = none := by
  induction l with
  | nil => rfl
  | cons x rest ih =>
    rw [List.filterMap_cons]
    cases hFx : F x with
    | none => exact ih (fun p hp => hnot p (List.mem_cons_of_mem _ hp))
    | some tr =>
      rw [List.find?]
      have hta : tr.asset = x.1 := hF x tr hFx
      have hne : ¬(tr.asset == a) = true := by
        intro hbeq
        exact hnot x (List.mem_cons_self _ _) (hta ▸ (by simpa using hbeq))
      rw [Bool.of_not_eq_true hne]
      exact ih (fun p hp => hnot p (List.mem_cons_of_mem _ hp))

/-- For a key-preserving trade producer `F` over a duplicate-free
association list, searching the filterMap for asset `a` is searching the
list for key `a` and then binding `F`. -/
theorem find?_filterMap_bind {l : List (String × ℚ)} {F : String × ℚ → Option Trade}
    (hF : ∀ p t, F p = some t → t.asset = p.1) (hnd : (keys l).Nodup) (a : String) :
    (l.filterMap F).find? (fun t => t.asset == a) =
      (l.find? (fun p => p.1 == a)).bind F := by
  induction l with
  | nil => rfl
  | cons x rest ih =>
    rw [keys, List.map_cons, List.nodup_cons] at hnd
    rw [List.filterMap_cons, List.find?]
    cases hxa : (x.1 == a) with
    | true =>
      have hxa' : x.1 = a := by simpa using hxa
      cases hFx : F x with
      | some tr =>
        rw [List.find?]
        have : (tr.asset == a) = true := by
          rw [hF x tr hFx, hxa']
          exact beq_self_eq_true a
        rw [this]
        simp [hFx]
      | none =>
        simp only [Option.some_bind, hFx]
        exact find?_filterMap_none hF
          (fun p hp hpa => hnd.1 (hxa' ▸ hpa ▸ List.mem_map_of_mem (·.1) hp))
    | false =>
      cases hFx : F x with
      | some tr =>
        rw [List.find?]
        have : (tr.asset == a) = false := by
          rw [hF x tr hFx]
          exact hxa
        rw [this]
        exact ih hnd.2
      | none =>
        exact ih hnd.2

end Engine

namespace Engine

/-- When a rebalance fires, the emitted trades are exactly the per-asset drift
decisions of step 4, mapped over the target allocation. -/
theorem generateRebalancingTrades_fired {holdings target : List (String × ℚ)}
    {asm : MarketAssumptions} {cfg : RebalancingConfig}
    (h : (generateRebalancingTrades holdings target asm cfg).needsRebalancing = true) :
    (generateRebalancingTrades holdings target asm cfg).trades =
      target.filterMap (fun p =>
        tradeFor holdings target (sumVals holdings) (jsOr cfg.minimumTradeAmount 10000)
          (p.1, lookupD holdings p.1 0 / sumVals holdings * 100 - p.2)) := by
  simp only [generateRebalancingTrades] at h ⊢
  by_cases h0 : sumVals holdings = 0
  · rw [if_pos h0] at h
    simp at h
  · rw [if_neg h0] at h ⊢
    by_cases h1 :
        maxAbs ((target.map fun p =>
          (p.1, lookupD holdings p.1 0 / sumVals holdings * 100 - p.2)).map (·.2)) <
          cfg.driftThreshold
    · rw [if_pos h1] at h
      simp at h
    · rw [if_neg h1]
      show (target.map fun p =>
          (p.1, lookupD holdings p.1 0 / sumVals holdings * 100 - p.2)).filterMap
          (tradeFor holdings target (sumVals holdings)
            (jsOr cfg.minimumTradeAmount 10000)) = _
      rw [List.filterMap_map]
      rfl

end Engine

namespace Engine

set_option maxRecDepth 3000 in
/-- C1 (corrected): if the holdings have positive total value and the target
allocation has no duplicate assets, then whenever `generateRebalancingTrades`
emits a trade list, executing every emitted trade at face value leaves every
target asset's drift — measured against the pre-trade total value used to size
the trades — no larger than the bigger of 1 percentage point and the
minimum-trade-amount ratio `100 * minimum_trade_amount / total value`.
(Measured against the post-trade total the bound fails, because the emitted
trades are not self-financing; see the counterexample.) -/
theorem c1_post_trade_drift_bound (holdings target : List (String × ℚ))
    (asm : MarketAssumptions) (cfg : RebalancingConfig)
    (hnd : (keys target).Nodup)
    (hpos : 0 < sumVals holdings)
    (hfire : (generateRebalancingTrades holdings target asm cfg).needsRebalancing = true) :
    ∀ p ∈ target,
      |driftAgainst
          (applyTrades holdings (generateRebalancingTrades holdings target asm cfg).trades)
          (sumVals holdings) p.1 p.2| ≤
        max 1 (100 * jsOr cfg.minimumTradeAmount 10000 / sumVals holdings) := by
  intro p hp
  obtain ⟨a, tpct⟩ := p
  rw [generateRebalancingTrades_fired hfire]
  rw [driftAgainst, lookupD_applyTrades]
  have hF : ∀ (q : String × ℚ) (t : Trade),
      tradeFor holdings target (sumVals holdings) (jsOr cfg.minimumTradeAmount 10000)
        (q.1, lookupD holdings q.1 0 / sumVals holdings * 100 - q.2) = some t →
      t.asset = q.1 := by
    intro q t hq
    simp only [tradeFor] at hq
    split at hq
    · split at hq
      · injection hq with he
        rw [← he]
      · cases hq
    · cases hq
  rw [find?_filterMap_bind hF hnd a]
  rw [find?_pair_mem_nodup hnd hp]
  have hlk : lookupD target a 0 = tpct := by
    rw [lookupD, find?_pair_mem_nodup hnd hp]
  simp only [Option.some_bind, tradeFor, hlk]
  set T := sumVals holdings with hT
  set cv := lookupD holdings a 0 with hcv
  set m := jsOr cfg.minimumTradeAmount 10000 with hm
  have hT0 : T ≠ 0 := ne_of_gt hpos
  split
  next tr htr =>
    split at htr
    · split at htr
      · injection htr with he
        subst he
        show |100 * (tpct / 100 * T) / T - tpct| ≤ max 1 (100 * m / T)
        have hz : 100 * (tpct / 100 * T) / T - tpct = 0 := by
          field_simp
        rw [hz, abs_zero]
        exact le_trans zero_le_one (le_max_left _ _)
      · cases htr
    · cases htr
  next hnone =>
    by_cases h1 : 1 < |cv / T * 100 - tpct|
    · rw [if_pos h1] at hnone
      by_cases h2 : m ≤ |tpct / 100 * T - cv|
      · rw [if_pos h2] at hnone
        cases hnone
      · have hamt : |tpct / 100 * T - cv| < m := lt_of_not_le h2
        have heq : |100 * cv / T - tpct| = 100 * |tpct / 100 * T - cv| / T := by
          have h1' : 100 * cv / T - tpct = -(100 / T * (tpct / 100 * T - cv)) := by
            field_simp
            ring
          rw [h1', abs_neg, abs_mul, abs_of_pos (by positivity : (0:ℚ) < 100 / T)]
          ring
        rw [heq]
        have hlt : 100 * |tpct / 100 * T - cv| ≤ 100 * m :=
          mul_le_mul_of_nonneg_left hamt.le (by norm_num)
        have hstep : 100 * |tpct / 100 * T - cv| / T ≤ 100 * m / T := by
          rw [div_le_div_iff₀ hpos hpos]
          exact mul_le_mul_of_nonneg_right hlt hpos.le
        exact hstep.trans (le_max_right _ _)
    · have hd : |100 * cv / T - tpct| ≤ 1 := by
        have hc : 100 * cv / T - tpct = cv / T * 100 - tpct := by
          ring
        rw [hc]
        exact not_lt.mp h1
      exact hd.trans (le_max_left _ _)

end Engine

namespace Engine

/-- Holdings for the C1 counterexample: total 1,000,000, asset A under target
by 2 pp, B and C over by exactly 1 pp each. -/
def c1Holdings : List (String × ℚ) := [("A", 880000), ("B", 60000), ("C", 60000)]

/-- Target allocation for the C1 counterexample. -/
def c1Target : List (String × ℚ) := [("A", 90), ("B", 5), ("C", 5)]

/-- Rebalancing config for the C1 counterexample: defaults for the minimum
trade amount (10000) and trading cost. -/
def c1Config : RebalancingConfig :=
  { driftThreshold := 2, minimumTradeAmount := none, tradingCostBps := none }

set_option maxRecDepth 3000 in
/-- C1 counterexample: the rebalancer fires and the claimed bound is 1 pp, yet
asset A's drift measured on the post-trade holdings against the post-trade
total value is |−30/17| ≈ 1.76 pp, exceeding the bound.  The emitted trades
are not self-financing (B and C each keep a 1 pp surplus that nobody sells),
so the post-trade total is 1,020,000 and A's post-trade weight is
900000/1020000 ≈ 88.24 % against a 90 % target. -/
theorem c1_drift_bound_new_total_counterexample :
    (generateRebalancingTrades c1Holdings c1Target INDIA_2024_Q4 c1Config).needsRebalancing
      = true ∧
    max 1 (100 * jsOr c1Config.minimumTradeAmount 10000 / sumVals c1Holdings) = 1 ∧
    1 < |driftAgainst
        (applyTrades c1Holdings
          (generateRebalancingTrades c1Holdings c1Target INDIA_2024_Q4 c1Config).trades)
        (sumVals (applyTrades c1Holdings
          (generateRebalancingTrades c1Holdings c1Target INDIA_2024_Q4 c1Config).trades))
        "A" 90| :=
  ⟨by with_unfolding_all decide, by with_unfolding_all decide, by with_unfolding_all decide⟩

end Engine

namespace Engine

set_option maxRecDepth 3000 in
/-- Witness for C1 at a concrete run: 85/15 holdings against a 70/30 target
with a 5 pp threshold fires the rebalancer, and the post-trade drift of the
equity asset against the pre-trade total is within the bound. -/
theorem c1_post_trade_drift_bound_witness :
    (keys [("equity-nifty50", (70:ℚ)), ("debt-govt-10y", 30)]).Nodup ∧
    0 < sumVals [("equity-nifty50", (850000:ℚ)), ("debt-govt-10y", 150000)] ∧
    (generateRebalancingTrades [("equity-nifty50", 850000), ("debt-govt-10y", 150000)]
        [("equity-nifty50", 70), ("debt-govt-10y", 30)] INDIA_2024_Q4
        { driftThreshold := 5, minimumTradeAmount := none,
          tradingCostBps := none }).needsRebalancing = true ∧
    |driftAgainst
        (applyTrades [("equity-nifty50", 850000), ("debt-govt-10y", 150000)]
          (generateRebalancingTrades [("equity-nifty50", 850000), ("debt-govt-10y", 150000)]
            [("equity-nifty50", 70), ("debt-govt-10y", 30)] INDIA_2024_Q4
            { driftThreshold := 5, minimumTradeAmount := none,
              tradingCostBps := none }).trades)
        (sumVals [("equity-nifty50", 850000), ("debt-govt-10y", 150000)])
        "equity-nifty50" 70| ≤
      max 1 (100 * jsOr none 10000 /
        sumVals [("equity-nifty50", 850000), ("debt-govt-10y", 150000)]) :=
  ⟨by with_unfolding_all decide, by with_unfolding_all decide,
    by with_unfolding_all decide,
    c1_post_trade_drift_bound
      [("equity-nifty50", 850000), ("debt-govt-10y", 150000)]
      [("equity-nifty50", 70), ("debt-govt-10y", 30)] INDIA_2024_Q4
      { driftThreshold := 5, minimumTradeAmount := none, tradingCostBps := none }
      (by with_unfolding_all decide) (by with_unfolding_all decide)
      (by with_unfolding_all decide)
      ("equity-nifty50", 70) (by with_unfolding_all decide)⟩

end Engine
